import Mathlib

/-!
# Console link reconciliation (`internal/manifests/console/consolelink.go`)

A shallow embedding of `CreateOrUpdateConsoleLink`, `DeleteKibanaConsoleLink`,
`ConsoleLinkEnabled`, `ConsoleLinksEqual` and `MutateConsoleLinkSpecOnly`.

* The store client (`client.Client`) is a record of state-passing functions
  over an arbitrary store state `σ`; a Go `error` is `Option Err` (`none` is
  `nil`).
* Every call the code makes on one of its collaborators (the client, the
  `equal` and `mutate` callbacks, the logger) is appended to a chronological
  call record carried next to the store state, so that "how many calls, in
  which order, with which arguments" can be stated.
* The sleeps between retry attempts are real time and are not recorded.
-/

namespace console

/-! ## Data model -/

/-- The `metav1.TypeMeta` block of an object. -/
structure TypeMeta where
  Kind : String
  APIVersion : String
  deriving DecidableEq, Repr

/-- The `metav1.ObjectMeta` block: the name (identity), and the store-assigned
`ResourceVersion` (the optimistic-concurrency version token). -/
structure ObjectMeta where
  Name : String
  Namespace : String
  ResourceVersion : String
  Labels : List (String × String)
  deriving DecidableEq, Repr

/-- The `consolev1.Link` block embedded in the spec. -/
structure Link where
  Text : String
  Href : String
  deriving DecidableEq, Repr

/-- The `consolev1.ApplicationMenuSpec` block. -/
structure ApplicationMenuSpec where
  Section : String
  ImageURL : String
  deriving DecidableEq, Repr

/-- The `consolev1.NamespaceDashboardSpec` block. -/
structure NamespaceDashboardSpec where
  Namespaces : List String
  deriving DecidableEq, Repr

/-- The `consolev1.ConsoleLinkSpec` payload. The two menu blocks are pointers in
Go and may be nil, hence `Option`. -/
structure ConsoleLinkSpec where
  Link : Link
  Location : String
  ApplicationMenu : Option ApplicationMenuSpec
  NamespaceDashboard : Option NamespaceDashboardSpec
  deriving DecidableEq, Repr

/-- The `consolev1.ConsoleLink` object. -/
structure ConsoleLink where
  TypeMeta : TypeMeta
  ObjectMeta : ObjectMeta
  Spec : ConsoleLinkSpec
  deriving DecidableEq, Repr

/-- Go promotes the fields of the embedded `ObjectMeta`: `cl.Name`. -/
def ConsoleLink.Name (cl : ConsoleLink) : String := cl.ObjectMeta.Name

/-- The `client.ObjectKey` (`types.NamespacedName`) lookup key. -/
structure ObjectKey where
  Namespace : String := ""
  Name : String
  deriving DecidableEq, Repr

/-- A `context.Context`: the never-cancelled `context.TODO()` or one supplied
by the caller. -/
inductive Context where
  | TODO : Context
  | supplied (id : Nat) : Context
  deriving DecidableEq, Repr

/-- The `metav1.StatusReason` classification of a store error. -/
inductive StatusReason where
  | Unknown
  | NotFound
  | AlreadyExists
  | Conflict
  | Forbidden
  | InternalError
  deriving DecidableEq, Repr

/-- A non-nil Go `error`: a store status error, or a `kverrors.Wrap` of a cause
with a message and key/value pairs. -/
inductive Err where
  | status (reason : StatusReason) (message : String) : Err
  | wrapped (cause : Err) (msg : String) (kv : List (String × String)) : Err
  deriving DecidableEq, Repr

/-- The wrapper `kverrors.Wrap(err, msg, keysAndValues...)`. -/
def kverrors.Wrap (err : Err) (msg : String) (kv : List (String × String)) : Err :=
  Err.wrapped err msg kv

/-- The reason `apierrors.ReasonForError` finds, looking through wrappers. -/
def apierrors.ReasonForError : Err → StatusReason
  | Err.status reason _ => reason
  | Err.wrapped cause _ _ => apierrors.ReasonForError cause

/-- The predicate `apierrors.IsNotFound`. -/
def apierrors.IsNotFound (err : Err) : Bool :=
  apierrors.ReasonForError err == StatusReason.NotFound

/-- The predicate `apierrors.IsConflict`. -/
def apierrors.IsConflict (err : Err) : Bool :=
  apierrors.ReasonForError err == StatusReason.Conflict

/-- The constant `KibanaConsoleLinkName`. -/
def KibanaConsoleLinkName : String := "kibana-public-url"

/-- The type `ConsoleLinkEqualityFunc`. -/
abbrev ConsoleLinkEqualityFunc := ConsoleLink → ConsoleLink → Bool

/-- The type `MutateConsoleLinkFunc`: Go mutates `current` in place, the model
returns the new `current`. -/
abbrev MutateConsoleLinkFunc := ConsoleLink → ConsoleLink → ConsoleLink

/-! ## Collaborators -/

/-- The part of `client.Client` the code uses. `Get` fills an out-parameter in
Go and returns the fetched object here; `GetCRD` is `Get` on a
`CustomResourceDefinition`, of which only the error is used. -/
structure Client (σ : Type) where
  Get : Context → ObjectKey → σ → Except Err ConsoleLink × σ
  Create : Context → ConsoleLink → σ → Option Err × σ
  Update : Context → ConsoleLink → σ → Option Err × σ
  Delete : Context → ConsoleLink → σ → Option Err × σ
  GetCRD : Context → ObjectKey → σ → Option Err × σ

/-- One call made by the code on a collaborator. -/
inductive Call where
  | Get (ctx : Context) (key : ObjectKey) : Call
  | Create (ctx : Context) (obj : ConsoleLink) : Call
  | Update (ctx : Context) (obj : ConsoleLink) : Call
  | Delete (ctx : Context) (obj : ConsoleLink) : Call
  | GetCRD (ctx : Context) (key : ObjectKey) : Call
  | equal (current desired : ConsoleLink) : Call
  | mutate (current desired : ConsoleLink) : Call
  | LogInfo (msg : String) : Call
  deriving DecidableEq, Repr

/-- The store state together with the chronological record of calls. -/
structure World (σ : Type) where
  store : σ
  calls : List Call

/-- The call `c.Get(ctx, key, current)`, recorded. -/
def doGet {σ : Type} (c : Client σ) (ctx : Context) (key : ObjectKey) (w : World σ) :
    Except Err ConsoleLink × World σ :=
  ((c.Get ctx key w.store).1, ⟨(c.Get ctx key w.store).2, w.calls ++ [Call.Get ctx key]⟩)

/-- The call `c.Create(ctx, obj)`, recorded. -/
def doCreate {σ : Type} (c : Client σ) (ctx : Context) (obj : ConsoleLink) (w : World σ) :
    Option Err × World σ :=
  ((c.Create ctx obj w.store).1, ⟨(c.Create ctx obj w.store).2, w.calls ++ [Call.Create ctx obj]⟩)

/-- The call `c.Update(ctx, obj)`, recorded. -/
def doUpdate {σ : Type} (c : Client σ) (ctx : Context) (obj : ConsoleLink) (w : World σ) :
    Option Err × World σ :=
  ((c.Update ctx obj w.store).1, ⟨(c.Update ctx obj w.store).2, w.calls ++ [Call.Update ctx obj]⟩)

/-- The call `c.Delete(ctx, obj)`, recorded. -/
def doDelete {σ : Type} (c : Client σ) (ctx : Context) (obj : ConsoleLink) (w : World σ) :
    Option Err × World σ :=
  ((c.Delete ctx obj w.store).1, ⟨(c.Delete ctx obj w.store).2, w.calls ++ [Call.Delete ctx obj]⟩)

/-- The call `client.Get(ctx, key, &crd)` on the schema registry, recorded. -/
def doGetCRD {σ : Type} (c : Client σ) (ctx : Context) (key : ObjectKey) (w : World σ) :
    Option Err × World σ :=
  ((c.GetCRD ctx key w.store).1, ⟨(c.GetCRD ctx key w.store).2, w.calls ++ [Call.GetCRD ctx key]⟩)

/-- The call `equal(current, desired)`, recorded. -/
def callEqual {σ : Type} (equal : ConsoleLinkEqualityFunc) (current desired : ConsoleLink)
    (w : World σ) : Bool × World σ :=
  (equal current desired, ⟨w.store, w.calls ++ [Call.equal current desired]⟩)

/-- The call `mutate(current, desired)`, recorded. -/
def callMutate {σ : Type} (mutate : MutateConsoleLinkFunc) (current desired : ConsoleLink)
    (w : World σ) : ConsoleLink × World σ :=
  (mutate current desired, ⟨w.store, w.calls ++ [Call.mutate current desired]⟩)

/-- The call `log.Info(msg)`, recorded. -/
def logInfo {σ : Type} (msg : String) (w : World σ) : World σ :=
  ⟨w.store, w.calls ++ [Call.LogInfo msg]⟩

/-! ## The retry helper of `k8s.io/client-go/util/retry` -/

/-- The `wait.Backoff` settings; only the attempt count `Steps` decides how
often the retried function runs (the durations are real time). -/
structure Backoff where
  Steps : Nat
  deriving DecidableEq, Repr

/-- Modelled from the spec: `retry.DefaultRetry` is declared in client-go, not
in this repository; the fixed retry budget is its 5 attempts. -/
def retry.DefaultRetry : Backoff := { Steps := 5 }

/-- Modelled from the spec: `retry.OnError` with the loop of
`wait.ExponentialBackoff` it runs, both of the Kubernetes client libraries and
not in this repository. The function is run at most `steps` times: success
ends the loop with nil, a retriable error is remembered and the loop goes on
(after a sleep, not modelled), any other error is returned at once, and when
the budget is used up the last retriable error is returned. -/
def retry.OnError {W : Type} (steps : Nat) (retriable : Err → Bool)
    (fn : W → Option Err × W) (lastErr : Option Err) (w : W) : Option Err × W :=
  match steps with
  | 0 => (lastErr, w)
  | n + 1 =>
    match fn w with
    | (none, w1) => (none, w1)
    | (some err, w1) =>
      if retriable err then retry.OnError n retriable fn (some err) w1
      else (some err, w1)

/-- The helper `retry.RetryOnConflict(backoff, fn)`, which is
`OnError(backoff, errors.IsConflict, fn)`. -/
def retry.RetryOnConflict {W : Type} (backoff : Backoff) (fn : W → Option Err × W) (w : W) :
    Option Err × W :=
  retry.OnError backoff.Steps apierrors.IsConflict fn none w

/-! ## The code under verification -/

/-- The closure handed to `retry.RetryOnConflict`: re-fetch, mutate, update. -/
def updateAttempt {σ : Type} (ctx : Context) (c : Client σ) (cl : ConsoleLink)
    (key : ObjectKey) (mutate : MutateConsoleLinkFunc) (w : World σ) : Option Err × World σ :=
  match doGet c ctx key w with
  | (Except.error err, w1) =>
    (some (kverrors.Wrap err "failed to get consolelink" [("name", cl.Name)]), w1)
  | (Except.ok current, w1) =>
    match callMutate mutate current cl w1 with
    | (current1, w2) =>
      match doUpdate c ctx current1 w2 with
      | (some err, w3) => (some err, w3)
      | (none, w3) => (none, w3)

/-- The function `CreateOrUpdateConsoleLink`. -/
def CreateOrUpdateConsoleLink {σ : Type} (ctx : Context) (c : Client σ) (cl : ConsoleLink)
    (equal : ConsoleLinkEqualityFunc) (mutate : MutateConsoleLinkFunc) (w : World σ) :
    Option Err × World σ :=
  let key : ObjectKey := { Name := cl.Name }
  match doGet c ctx key w with
  | (Except.error err, w1) =>
    if apierrors.IsNotFound err then
      match doCreate c ctx cl w1 with
      | (none, w2) => (none, w2)
      | (some err1, w2) =>
        (some (kverrors.Wrap err1 "failed to create consolelink" [("name", cl.Name)]), w2)
    else
      (some (kverrors.Wrap err "failed to get consolelink" [("name", cl.Name)]), w1)
  | (Except.ok current, w1) =>
    match callEqual equal current cl w1 with
    | (false, w2) =>
      match retry.RetryOnConflict retry.DefaultRetry (updateAttempt ctx c cl key mutate) w2 with
      | (some err, w3) =>
        (some (kverrors.Wrap err "failed to update consolelink" [("name", cl.Name)]), w3)
      | (none, w3) => (none, w3)
    | (true, w2) => (none, w2)

/-- The function `ConsoleLinkEnabled`: one read of the schema registry with
`context.TODO()`; enabled exactly when the read returns no error. -/
def ConsoleLinkEnabled {σ : Type} (c : Client σ) (w : World σ) : Bool × World σ :=
  match doGetCRD c Context.TODO { Name := "consolelinks.console.openshift.io" } w with
  | (err, w1) => (err.isNone, w1)

/-- The function `DeleteKibanaConsoleLink`. The constructor `NewConsoleLink`
lives in another file of the package and is taken as a parameter. -/
def DeleteKibanaConsoleLink {σ : Type}
    (NewConsoleLink : String → String → String → String → String → ConsoleLink)
    (ctx : Context) (c : Client σ) (w : World σ) : Option Err × World σ :=
  match ConsoleLinkEnabled c w with
  | (false, w1) =>
    (none, logInfo "Console CRD is not found, skipping console link deletion" w1)
  | (true, w1) =>
    let current := NewConsoleLink KibanaConsoleLinkName "" "" "" ""
    match doDelete c ctx current w1 with
    | (some err, w2) =>
      if !apierrors.IsNotFound err then
        (some (kverrors.Wrap err "failed to delete consolelink" [("name", KibanaConsoleLinkName)]), w2)
      else (none, w2)
    | (none, w2) => (none, w2)

/-- The function `MutateConsoleLinkSpecOnly`: `current.Spec = desired.Spec`, returning
the new `current`. -/
def MutateConsoleLinkSpecOnly (current desired : ConsoleLink) : ConsoleLink :=
  { current with Spec := desired.Spec }

/-- The function `ConsoleLinksEqual`. It returns `none` where the Go code
aborts: `Spec.ApplicationMenu` is a pointer, and once location, text and href
are found equal both sides are dereferenced to read `Section`. -/
def ConsoleLinksEqual (current desired : ConsoleLink) : Option Bool :=
  if current.Spec.Location != desired.Spec.Location then some false
  else if current.Spec.Link.Text != desired.Spec.Link.Text then some false
  else if current.Spec.Link.Href != desired.Spec.Link.Href then some false
  else
    match current.Spec.ApplicationMenu, desired.Spec.ApplicationMenu with
    | some currentMenu, some desiredMenu =>
      if currentMenu.Section != desiredMenu.Section then some false else some true
    | _, _ => none

/-! ## Reading the call record -/

/-- Whether a recorded call is a `Get` of a console link. -/
def Call.isGet : Call → Bool
  | Call.Get _ _ => true
  | _ => false

/-- Whether a recorded call is a `Create`. -/
def Call.isCreate : Call → Bool
  | Call.Create _ _ => true
  | _ => false

/-- Whether a recorded call is an `Update`. -/
def Call.isUpdate : Call → Bool
  | Call.Update _ _ => true
  | _ => false

/-- Whether a recorded call is a `Delete`. -/
def Call.isDelete : Call → Bool
  | Call.Delete _ _ => true
  | _ => false

/-- The calls of successive runs of the retried closure whose re-fetches
returned the objects `curs`, in order: each run is a `Get`, the `mutate`
callback and the `Update` of the mutated object. -/
def attemptCalls (ctx : Context) (key : ObjectKey) (cl : ConsoleLink)
    (mutate : MutateConsoleLinkFunc) : List ConsoleLink → List Call
  | [] => []
  | cur :: rest =>
    Call.Get ctx key :: Call.mutate cur cl :: Call.Update ctx (mutate cur cl) ::
      attemptCalls ctx key cl mutate rest

/-- What tells one failure of the package from another: the message and the
key/value pairs of the outermost wrapper of the returned error. -/
def Err.label : Err → String × List (String × String)
  | Err.status _ message => (message, [])
  | Err.wrapped _ msg kv => (msg, kv)

/-! ## Stores to run the code against -/

/-- A store that answers by script: `Get`, `Create`, `Delete` and the schema
read always give the same answer, `Update` answers by the number of `Update`
calls received before, which is the store state. -/
def scriptedClient (get : Except Err ConsoleLink) (create : Option Err)
    (update : Nat → Option Err) (delete crd : Option Err) : Client Nat where
  Get _ _ n := (get, n)
  Create _ _ n := (create, n)
  Update _ _ n := (update n, n + 1)
  Delete _ _ n := (delete, n)
  GetCRD _ _ n := (crd, n)

/-- The object stored under a name, if any. -/
def storeLookup (s : List ConsoleLink) (name : String) : Option ConsoleLink :=
  s.find? (fun o => o.Name == name)

/-- The store with `obj` written under its name. -/
def storePut (s : List ConsoleLink) (obj : ConsoleLink) : List ConsoleLink :=
  obj :: s.filter (fun o => o.Name != obj.Name)

/-- A faithful in-memory store with no other writer: `Create` and `Update`
store the object they are given under its name, `Get` returns what is stored,
and nothing else changes the contents. -/
def faithfulStore : Client (List ConsoleLink) where
  Get _ key s :=
    match storeLookup s key.Name with
    | some o => (Except.ok o, s)
    | none => (Except.error (Err.status StatusReason.NotFound key.Name), s)
  Create _ obj s :=
    match storeLookup s obj.Name with
    | some _ => (some (Err.status StatusReason.AlreadyExists obj.Name), s)
    | none => (none, storePut s obj)
  Update _ obj s :=
    match storeLookup s obj.Name with
    | some _ => (none, storePut s obj)
    | none => (some (Err.status StatusReason.NotFound obj.Name), s)
  Delete _ obj s :=
    match storeLookup s obj.Name with
    | some _ => (none, s.filter (fun o => o.Name != obj.Name))
    | none => (some (Err.status StatusReason.NotFound obj.Name), s)
  GetCRD _ _ s := (none, s)

/-- A sample console link with the given name and link text. -/
def sampleLink (name text : String) : ConsoleLink :=
  { TypeMeta := { Kind := "ConsoleLink", APIVersion := "console.openshift.io/v1" }
    ObjectMeta := { Name := name, Namespace := "", ResourceVersion := "", Labels := [] }
    Spec := { Link := { Text := text, Href := "" }, Location := "ApplicationMenu"
              ApplicationMenu := some { Section := "", ImageURL := "" }
              NamespaceDashboard := none } }

/-- A sample constructor to stand for `NewConsoleLink`: it sets the name, the
link and the application menu from its arguments. -/
def sampleNewConsoleLink (name href text icon sect : String) : ConsoleLink :=
  { TypeMeta := { Kind := "ConsoleLink", APIVersion := "console.openshift.io/v1" }
    ObjectMeta := { Name := name, Namespace := "", ResourceVersion := "", Labels := [] }
    Spec := { Link := { Text := text, Href := href }, Location := "ApplicationMenu"
              ApplicationMenu := some { Section := sect, ImageURL := icon }
              NamespaceDashboard := none } }

/-- A store whose `Get` is answered Forbidden. -/
def getDeniedClient : Client Nat :=
  scriptedClient (Except.error (Err.status StatusReason.Forbidden "denied")) none
    (fun _ => none) none none

/-- A store whose `Get` is answered NotFound and whose `Create` is answered
AlreadyExists. -/
def createRefusedClient : Client Nat :=
  scriptedClient (Except.error (Err.status StatusReason.NotFound "x"))
    (some (Err.status StatusReason.AlreadyExists "x")) (fun _ => none) none none

/-- A store holding `sampleLink "x" "a"` whose every `Update` is answered
Forbidden. -/
def updateDeniedClient : Client Nat :=
  scriptedClient (Except.ok (sampleLink "x" "a")) none
    (fun _ => some (Err.status StatusReason.Forbidden "denied")) none none

/-- A store holding `sampleLink "x" "a"` whose first `K` `Update`s are answered
Conflict and whose later ones succeed. -/
def conflictsThenOkClient (K : Nat) : Client Nat :=
  scriptedClient (Except.ok (sampleLink "x" "a")) none
    (fun n => if n < K then some (Err.status StatusReason.Conflict "stale") else none)
    none none

/-- A store holding `sampleLink "x" "a"` whose every `Update` is answered
Conflict. -/
def alwaysConflictClient : Client Nat :=
  scriptedClient (Except.ok (sampleLink "x" "a")) none
    (fun _ => some (Err.status StatusReason.Conflict "stale")) none none

/-- A store whose schema registry has no console link descriptor. -/
def schemaAbsentClient : Client Nat :=
  scriptedClient (Except.error (Err.status StatusReason.NotFound "x")) none
    (fun _ => none) none (some (Err.status StatusReason.NotFound "crd"))

/-- A store with the descriptor installed whose `Delete` is answered
Forbidden. -/
def deleteDeniedClient : Client Nat :=
  scriptedClient (Except.error (Err.status StatusReason.NotFound "x")) none
    (fun _ => none) (some (Err.status StatusReason.Forbidden "denied")) none

/-- The stored link of the idempotence counterexample: `sampleLink "x" "a"`
carrying a label. -/
def labelledLink : ConsoleLink :=
  { sampleLink "x" "a" with
    ObjectMeta := { Name := "x", Namespace := "", ResourceVersion := "",
                    Labels := [("owner", "other")] } }

/-- Whether a recorded call is a call of the `equal` callback. -/
def Call.isEqual : Call → Bool
  | Call.equal _ _ => true
  | _ => false

/-- The calls of successive runs of the retried closure, one entry per run:
`some cur` is a run whose re-fetch returned `cur` (`Get`, `mutate`, `Update`),
`none` a run whose re-fetch failed (the `Get` alone). -/
def iterCalls (ctx : Context) (key : ObjectKey) (cl : ConsoleLink)
    (mutate : MutateConsoleLinkFunc) : List (Option ConsoleLink) → List Call
  | [] => []
  | some cur :: rest =>
    Call.Get ctx key :: Call.mutate cur cl :: Call.Update ctx (mutate cur cl) ::
      iterCalls ctx key cl mutate rest
  | none :: rest => Call.Get ctx key :: iterCalls ctx key cl mutate rest

/-- A store that answers `Get` by script: the answer depends on the number
of `Get` calls received before, which is the store state; every `Update` gets
the same answer. -/
def getScriptedClient (get : Nat → Except Err ConsoleLink) (update : Option Err) :
    Client Nat where
  Get _ _ n := (get n, n + 1)
  Create _ _ n := (none, n)
  Update _ _ n := (update, n)
  Delete _ _ n := (none, n)
  GetCRD _ _ n := (none, n)

/-- A store that holds `sampleLink "x" "a"` at the first `Get` and
`sampleLink "x" "b"`, written by someone else, from then on; `Update`
succeeds. -/
def overtakenClient : Client Nat :=
  getScriptedClient
    (fun n => if n = 0 then Except.ok (sampleLink "x" "a") else Except.ok (sampleLink "x" "b"))
    none

/-- A store that holds `sampleLink "x" "a"` at the first `Get` and
`labelledLink`, the same link relabelled by someone else, from then on;
`Update` succeeds. -/
def relabelledClient : Client Nat :=
  getScriptedClient
    (fun n => if n = 0 then Except.ok (sampleLink "x" "a") else Except.ok labelledLink)
    none

/-- A store whose first two `Get`s return `sampleLink "x" "a"` and whose later
ones say NotFound (the object was deleted), every `Update` being answered
Conflict. -/
def deletedMeanwhileClient : Client Nat :=
  getScriptedClient
    (fun n => if n ≤ 1 then Except.ok (sampleLink "x" "a")
      else Except.error (Err.status StatusReason.NotFound "x"))
    (some (Err.status StatusReason.Conflict "stale"))

/-- A help-menu link: its location is not the application menu and it has no
application menu block. -/
def helpLink (name text : String) : ConsoleLink :=
  { TypeMeta := { Kind := "ConsoleLink", APIVersion := "console.openshift.io/v1" }
    ObjectMeta := { Name := name, Namespace := "", ResourceVersion := "", Labels := [] }
    Spec := { Link := { Text := text, Href := "" }, Location := "HelpMenu"
              ApplicationMenu := none
              NamespaceDashboard := none } }

/-- What the store answers to the re-fetches of `n` successive runs of
re-fetch, mutate, update, started on the store `s`: `some cur` for a re-fetch
that returned `cur` (the `Update` of `mutate cur cl` is then made on the store
as the re-fetch left it), `none` for a re-fetch that failed. It is read off the
client alone. -/
def refetches {σ : Type} (c : Client σ) (ctx : Context) (key : ObjectKey) (cl : ConsoleLink)
    (mutate : MutateConsoleLinkFunc) : Nat → σ → List (Option ConsoleLink)
  | 0, _ => []
  | n + 1, s =>
    match c.Get ctx key s with
    | (Except.ok cur, s1) =>
      some cur :: refetches c ctx key cl mutate n (c.Update ctx (mutate cur cl) s1).2
    | (Except.error _, s1) => none :: refetches c ctx key cl mutate n s1

/-- The store after `n` such runs started on the store `s`. -/
def storeAfterRuns {σ : Type} (c : Client σ) (ctx : Context) (key : ObjectKey)
    (cl : ConsoleLink) (mutate : MutateConsoleLinkFunc) : Nat → σ → σ
  | 0, s => s
  | n + 1, s =>
    match c.Get ctx key s with
    | (Except.ok cur, s1) =>
      storeAfterRuns c ctx key cl mutate n (c.Update ctx (mutate cur cl) s1).2
    | (Except.error _, s1) => storeAfterRuns c ctx key cl mutate n s1

/-- A store holding `sampleLink "x" "a"` whose every `Update` is answered with
a Conflict that tells which `Update` it was. -/
def numberedConflictClient : Client Nat :=
  scriptedClient (Except.ok (sampleLink "x" "a")) none
    (fun n => some (Err.status StatusReason.Conflict
      (["first", "second", "third", "fourth", "fifth"].getD n "later")))
    none none

/-! ## Theorems -/

theorem doGet_eq {σ : Type} (c : Client σ) (ctx : Context) (key : ObjectKey) (w : World σ)
    (r : Except Err ConsoleLink) (s1 : σ) (h : c.Get ctx key w.store = (r, s1)) :
    doGet c ctx key w = (r, ⟨s1, w.calls ++ [Call.Get ctx key]⟩) := by
  simp [doGet, h]

/-- C1. Create-on-absence: when the initial `Get` by the desired object's name
returns NotFound, the calls made are exactly that `Get` followed by one
`Create` of the desired object (no `Update`, `equal`, `mutate` or second
`Get`), the store is left as `Create` left it, and the call returns nil when
that `Create` succeeds. -/
theorem createOrUpdate_create_on_absence {σ : Type} (ctx : Context) (c : Client σ)
    (cl : ConsoleLink) (equal : ConsoleLinkEqualityFunc) (mutate : MutateConsoleLinkFunc)
    (w : World σ) (err : Err) (s1 : σ)
    (hGet : c.Get ctx { Name := cl.Name } w.store = (Except.error err, s1))
    (hNotFound : apierrors.IsNotFound err = true) :
    (CreateOrUpdateConsoleLink ctx c cl equal mutate w).2.calls
        = w.calls ++ [Call.Get ctx { Name := cl.Name }, Call.Create ctx cl]
      ∧ (CreateOrUpdateConsoleLink ctx c cl equal mutate w).2.store = (c.Create ctx cl s1).2
      ∧ ((c.Create ctx cl s1).1 = none →
          (CreateOrUpdateConsoleLink ctx c cl equal mutate w).1 = none) := by
  have hG := doGet_eq c ctx { Name := cl.Name } w _ _ hGet
  simp only [CreateOrUpdateConsoleLink, hG, hNotFound, if_true, doCreate]
  cases hC : (c.Create ctx cl s1).1 <;> simp

/-- Witness for C1 on the empty faithful store. -/
theorem createOrUpdate_create_on_absence_witness :
    (CreateOrUpdateConsoleLink (Context.supplied 0) faithfulStore (sampleLink "x" "a")
        (fun _ _ => false) MutateConsoleLinkSpecOnly ⟨[], []⟩).2.calls
        = [] ++ [Call.Get (Context.supplied 0) { Name := (sampleLink "x" "a").Name },
                 Call.Create (Context.supplied 0) (sampleLink "x" "a")]
      ∧ (CreateOrUpdateConsoleLink (Context.supplied 0) faithfulStore (sampleLink "x" "a")
          (fun _ _ => false) MutateConsoleLinkSpecOnly ⟨[], []⟩).2.store
          = (faithfulStore.Create (Context.supplied 0) (sampleLink "x" "a") []).2
      ∧ ((faithfulStore.Create (Context.supplied 0) (sampleLink "x" "a") []).1 = none →
          (CreateOrUpdateConsoleLink (Context.supplied 0) faithfulStore (sampleLink "x" "a")
            (fun _ _ => false) MutateConsoleLinkSpecOnly ⟨[], []⟩).1 = none) :=
  createOrUpdate_create_on_absence (Context.supplied 0) faithfulStore (sampleLink "x" "a")
    (fun _ _ => false) MutateConsoleLinkSpecOnly ⟨[], []⟩
    (Err.status StatusReason.NotFound "x") [] rfl rfl

/-- C2. No-op on equality: when the initial `Get` succeeds and `equal` holds of
the fetched and the desired object, the call returns nil and has made exactly
one `Get` and the one `equal` call: no `Create`, no `Update`, no `mutate`; the
store is as `Get` left it. -/
theorem createOrUpdate_noop_on_equal {σ : Type} (ctx : Context) (c : Client σ)
    (cl : ConsoleLink) (equal : ConsoleLinkEqualityFunc) (mutate : MutateConsoleLinkFunc)
    (w : World σ) (current : ConsoleLink) (s1 : σ)
    (hGet : c.Get ctx { Name := cl.Name } w.store = (Except.ok current, s1))
    (hEqual : equal current cl = true) :
    CreateOrUpdateConsoleLink ctx c cl equal mutate w
      = (none, ⟨s1, w.calls ++ [Call.Get ctx { Name := cl.Name }, Call.equal current cl]⟩) := by
  have hG := doGet_eq c ctx { Name := cl.Name } w _ _ hGet
  simp [CreateOrUpdateConsoleLink, hG, callEqual, hEqual]

/-- Witness for C2: the desired object is already stored. -/
theorem createOrUpdate_noop_on_equal_witness :
    CreateOrUpdateConsoleLink (Context.supplied 0) faithfulStore (sampleLink "x" "a")
        (fun a b => a.Spec == b.Spec) MutateConsoleLinkSpecOnly ⟨[sampleLink "x" "a"], []⟩
      = (none, ⟨[sampleLink "x" "a"],
          [] ++ [Call.Get (Context.supplied 0) { Name := (sampleLink "x" "a").Name },
                 Call.equal (sampleLink "x" "a") (sampleLink "x" "a")]⟩) :=
  createOrUpdate_noop_on_equal (Context.supplied 0) faithfulStore (sampleLink "x" "a")
    (fun a b => a.Spec == b.Spec) MutateConsoleLinkSpecOnly ⟨[sampleLink "x" "a"], []⟩
    (sampleLink "x" "a") [sampleLink "x" "a"] rfl (by decide)

/-- C6. Fetch failure is propagated without retry: when the initial `Get`
fails with an error that is not NotFound, the call returns that error wrapped
as "failed to get consolelink" with the object's name, having made exactly one
`Get` and no other call. -/
theorem createOrUpdate_fetch_failure {σ : Type} (ctx : Context) (c : Client σ)
    (cl : ConsoleLink) (equal : ConsoleLinkEqualityFunc) (mutate : MutateConsoleLinkFunc)
    (w : World σ) (err : Err) (s1 : σ)
    (hGet : c.Get ctx { Name := cl.Name } w.store = (Except.error err, s1))
    (hOther : apierrors.IsNotFound err = false) :
    CreateOrUpdateConsoleLink ctx c cl equal mutate w
      = (some (kverrors.Wrap err "failed to get consolelink" [("name", cl.Name)]),
          ⟨s1, w.calls ++ [Call.Get ctx { Name := cl.Name }]⟩) := by
  have hG := doGet_eq c ctx { Name := cl.Name } w _ _ hGet
  simp [CreateOrUpdateConsoleLink, hG, hOther]

/-- Witness for C6: the store answers the `Get` with a Forbidden error. -/
theorem createOrUpdate_fetch_failure_witness :
    CreateOrUpdateConsoleLink (Context.supplied 0) getDeniedClient (sampleLink "x" "a")
        (fun _ _ => true) MutateConsoleLinkSpecOnly ⟨0, []⟩
      = (some (kverrors.Wrap (Err.status StatusReason.Forbidden "denied")
            "failed to get consolelink" [("name", (sampleLink "x" "a").Name)]),
          ⟨0, [] ++ [Call.Get (Context.supplied 0) { Name := (sampleLink "x" "a").Name }]⟩) :=
  createOrUpdate_fetch_failure (Context.supplied 0) getDeniedClient (sampleLink "x" "a")
    (fun _ _ => true) MutateConsoleLinkSpecOnly ⟨0, []⟩
    (Err.status StatusReason.Forbidden "denied") 0 rfl rfl

/-- C7. Create failure is fatal for the create path: when the initial `Get`
returns NotFound and `Create` fails with any error (AlreadyExists included),
the call returns that error wrapped as "failed to create consolelink" with the
object's name, and the calls made are exactly the `Get` and the one `Create`:
no `Update`, no second `Get`, no second `Create`. -/
theorem createOrUpdate_create_failure {σ : Type} (ctx : Context) (c : Client σ)
    (cl : ConsoleLink) (equal : ConsoleLinkEqualityFunc) (mutate : MutateConsoleLinkFunc)
    (w : World σ) (err cause : Err) (s1 s2 : σ)
    (hGet : c.Get ctx { Name := cl.Name } w.store = (Except.error err, s1))
    (hNotFound : apierrors.IsNotFound err = true)
    (hCreate : c.Create ctx cl s1 = (some cause, s2)) :
    CreateOrUpdateConsoleLink ctx c cl equal mutate w
      = (some (kverrors.Wrap cause "failed to create consolelink" [("name", cl.Name)]),
          ⟨s2, w.calls ++ [Call.Get ctx { Name := cl.Name }, Call.Create ctx cl]⟩) := by
  have hG := doGet_eq c ctx { Name := cl.Name } w _ _ hGet
  simp [CreateOrUpdateConsoleLink, hG, hNotFound, doCreate, hCreate]

/-- Witness for C7: `Get` says NotFound and `Create` says AlreadyExists. -/
theorem createOrUpdate_create_failure_witness :
    CreateOrUpdateConsoleLink (Context.supplied 0) createRefusedClient (sampleLink "x" "a")
        (fun _ _ => true) MutateConsoleLinkSpecOnly ⟨0, []⟩
      = (some (kverrors.Wrap (Err.status StatusReason.AlreadyExists "x")
            "failed to create consolelink" [("name", (sampleLink "x" "a").Name)]),
          ⟨0, [] ++ [Call.Get (Context.supplied 0) { Name := (sampleLink "x" "a").Name },
                     Call.Create (Context.supplied 0) (sampleLink "x" "a")]⟩) :=
  createOrUpdate_create_failure (Context.supplied 0) createRefusedClient (sampleLink "x" "a")
    (fun _ _ => true) MutateConsoleLinkSpecOnly ⟨0, []⟩
    (Err.status StatusReason.NotFound "x") (Err.status StatusReason.AlreadyExists "x") 0 0
    rfl rfl rfl

/-- One run of the retried closure whose re-fetch succeeds: the calls are the
`Get`, `mutate` on the fetched object, and the `Update` of the mutated object,
whose answer is the closure's answer. -/
theorem updateAttempt_of_get_ok {σ : Type} (ctx : Context) (c : Client σ) (cl : ConsoleLink)
    (key : ObjectKey) (mutate : MutateConsoleLinkFunc) (w : World σ) (cur : ConsoleLink)
    (s1 : σ) (hGet : c.Get ctx key w.store = (Except.ok cur, s1)) :
    updateAttempt ctx c cl key mutate w
      = ((c.Update ctx (mutate cur cl) s1).1,
          ⟨(c.Update ctx (mutate cur cl) s1).2,
            w.calls ++ [Call.Get ctx key, Call.mutate cur cl, Call.Update ctx (mutate cur cl)]⟩) := by
  have hG := doGet_eq c ctx key w _ _ hGet
  simp only [updateAttempt, hG, callMutate, doUpdate]
  cases hU : (c.Update ctx (mutate cur cl) s1).1 <;> simp

/-- C5. A non-conflict update failure is not retried: when the initial `Get`
succeeds, `equal` is false, the re-fetch succeeds and `Update` fails with an
error that is not a Conflict, the call returns that error wrapped as "failed
to update consolelink" with the object's name, after exactly one `Update` and
no `Get` after the re-fetch. -/
theorem createOrUpdate_update_failure_not_retried {σ : Type} (ctx : Context) (c : Client σ)
    (cl : ConsoleLink) (equal : ConsoleLinkEqualityFunc) (mutate : MutateConsoleLinkFunc)
    (w : World σ) (cur0 cur1 : ConsoleLink) (cause : Err) (s1 s2 s3 : σ)
    (hGet : c.Get ctx { Name := cl.Name } w.store = (Except.ok cur0, s1))
    (hEqual : equal cur0 cl = false)
    (hRefetch : c.Get ctx { Name := cl.Name } s1 = (Except.ok cur1, s2))
    (hUpdate : c.Update ctx (mutate cur1 cl) s2 = (some cause, s3))
    (hOther : apierrors.IsConflict cause = false) :
    CreateOrUpdateConsoleLink ctx c cl equal mutate w
      = (some (kverrors.Wrap cause "failed to update consolelink" [("name", cl.Name)]),
          ⟨s3, w.calls ++ [Call.Get ctx { Name := cl.Name }, Call.equal cur0 cl,
                           Call.Get ctx { Name := cl.Name }, Call.mutate cur1 cl,
                           Call.Update ctx (mutate cur1 cl)]⟩) := by
  have hG := doGet_eq c ctx { Name := cl.Name } w _ _ hGet
  have hA := updateAttempt_of_get_ok ctx c cl { Name := cl.Name } mutate
    ⟨s1, w.calls ++ [Call.Get ctx { Name := cl.Name }, Call.equal cur0 cl]⟩ cur1 s2 hRefetch
  simp only [hUpdate] at hA
  simp [CreateOrUpdateConsoleLink, hG, callEqual, hEqual, retry.RetryOnConflict,
    retry.DefaultRetry, retry.OnError, hA, hOther]

/-- Witness for C5: the first `Update` is answered Forbidden. -/
theorem createOrUpdate_update_failure_not_retried_witness :
    CreateOrUpdateConsoleLink (Context.supplied 0) updateDeniedClient (sampleLink "x" "b")
        (fun a b => a.Spec == b.Spec) MutateConsoleLinkSpecOnly ⟨0, []⟩
      = (some (kverrors.Wrap (Err.status StatusReason.Forbidden "denied")
            "failed to update consolelink" [("name", (sampleLink "x" "b").Name)]),
          ⟨1, [] ++ [Call.Get (Context.supplied 0) { Name := (sampleLink "x" "b").Name },
                     Call.equal (sampleLink "x" "a") (sampleLink "x" "b"),
                     Call.Get (Context.supplied 0) { Name := (sampleLink "x" "b").Name },
                     Call.mutate (sampleLink "x" "a") (sampleLink "x" "b"),
                     Call.Update (Context.supplied 0)
                       (MutateConsoleLinkSpecOnly (sampleLink "x" "a") (sampleLink "x" "b"))]⟩) :=
  createOrUpdate_update_failure_not_retried (Context.supplied 0) updateDeniedClient
    (sampleLink "x" "b") (fun a b => a.Spec == b.Spec) MutateConsoleLinkSpecOnly ⟨0, []⟩
    (sampleLink "x" "a") (sampleLink "x" "a") (Err.status StatusReason.Forbidden "denied")
    0 0 1 rfl (by decide) rfl rfl rfl

theorem attemptCalls_countP_isGet (ctx : Context) (key : ObjectKey) (cl : ConsoleLink)
    (mutate : MutateConsoleLinkFunc) (curs : List ConsoleLink) :
    (attemptCalls ctx key cl mutate curs).countP Call.isGet = curs.length := by
  induction curs with
  | nil => rfl
  | cons cur rest ih => simp [attemptCalls, Call.isGet, ih]

theorem attemptCalls_countP_isUpdate (ctx : Context) (key : ObjectKey) (cl : ConsoleLink)
    (mutate : MutateConsoleLinkFunc) (curs : List ConsoleLink) :
    (attemptCalls ctx key cl mutate curs).countP Call.isUpdate = curs.length := by
  induction curs with
  | nil => rfl
  | cons cur rest ih => simp [attemptCalls, Call.isUpdate, ih]

/-- The retry loop under `j` more conflicts followed by a success, with more
than `j` attempts left: it returns nil after `j + 1` runs of the closure. -/
theorem onError_conflicts_then_success {σ : Type} (ctx : Context) (c : Client σ)
    (cl : ConsoleLink) (key : ObjectKey) (mutate : MutateConsoleLinkFunc) (K : Nat)
    (updates : σ → Nat)
    (hGet : ∀ s, ∃ cur, (c.Get ctx key s).1 = Except.ok cur
      ∧ updates (c.Get ctx key s).2 = updates s)
    (hCount : ∀ s obj, updates (c.Update ctx obj s).2 = updates s + 1)
    (hConflict : ∀ s obj, updates s < K →
      ∃ e, (c.Update ctx obj s).1 = some e ∧ apierrors.IsConflict e = true)
    (hOk : ∀ s obj, updates s = K → (c.Update ctx obj s).1 = none) :
    ∀ (j n : Nat) (lastErr : Option Err) (w : World σ), j < n → updates w.store + j = K →
      ∃ curs w1, curs.length = j + 1
        ∧ retry.OnError n apierrors.IsConflict (updateAttempt ctx c cl key mutate) lastErr w
            = (none, w1)
        ∧ w1.calls = w.calls ++ attemptCalls ctx key cl mutate curs := by
  intro j
  induction j with
  | zero =>
    intro n lastErr w hn hK
    obtain ⟨m, rfl⟩ : ∃ m, n = m + 1 := ⟨n - 1, by omega⟩
    obtain ⟨cur, hcur, hupd⟩ := hGet w.store
    have hA := updateAttempt_of_get_ok ctx c cl key mutate w cur (c.Get ctx key w.store).2
      (Prod.ext hcur rfl)
    have hU := hOk (c.Get ctx key w.store).2 (mutate cur cl) (by omega)
    refine ⟨[cur], ⟨(c.Update ctx (mutate cur cl) (c.Get ctx key w.store).2).2,
      w.calls ++ [Call.Get ctx key, Call.mutate cur cl, Call.Update ctx (mutate cur cl)]⟩,
      rfl, ?_, rfl⟩
    simp [retry.OnError, hA, hU]
  | succ j ih =>
    intro n lastErr w hn hK
    obtain ⟨m, rfl⟩ : ∃ m, n = m + 1 := ⟨n - 1, by omega⟩
    obtain ⟨cur, hcur, hupd⟩ := hGet w.store
    have hA := updateAttempt_of_get_ok ctx c cl key mutate w cur (c.Get ctx key w.store).2
      (Prod.ext hcur rfl)
    obtain ⟨e, hU, he⟩ := hConflict (c.Get ctx key w.store).2 (mutate cur cl) (by omega)
    have hC := hCount (c.Get ctx key w.store).2 (mutate cur cl)
    obtain ⟨curs, w1, hlen, hrun, hcalls⟩ := ih m (some e)
      ⟨(c.Update ctx (mutate cur cl) (c.Get ctx key w.store).2).2,
        w.calls ++ [Call.Get ctx key, Call.mutate cur cl, Call.Update ctx (mutate cur cl)]⟩
      (by omega) (by simp only; omega)
    refine ⟨cur :: curs, w1, by simp [hlen], ?_, ?_⟩
    · simp [retry.OnError, hA, hU, he, hrun]
    · simp [hcalls, attemptCalls]

theorem refetches_succ_ok {σ : Type} (c : Client σ) (ctx : Context) (key : ObjectKey)
    (cl : ConsoleLink) (mutate : MutateConsoleLinkFunc) (n : Nat) (s s1 : σ)
    (cur : ConsoleLink) (h : c.Get ctx key s = (Except.ok cur, s1)) :
    refetches c ctx key cl mutate (n + 1) s
      = some cur :: refetches c ctx key cl mutate n (c.Update ctx (mutate cur cl) s1).2 := by
  simp [refetches, h]

theorem refetches_succ_error {σ : Type} (c : Client σ) (ctx : Context) (key : ObjectKey)
    (cl : ConsoleLink) (mutate : MutateConsoleLinkFunc) (n : Nat) (s s1 : σ)
    (e : Err) (h : c.Get ctx key s = (Except.error e, s1)) :
    refetches c ctx key cl mutate (n + 1) s = none :: refetches c ctx key cl mutate n s1 := by
  simp [refetches, h]

theorem storeAfterRuns_succ_ok {σ : Type} (c : Client σ) (ctx : Context) (key : ObjectKey)
    (cl : ConsoleLink) (mutate : MutateConsoleLinkFunc) (n : Nat) (s s1 : σ)
    (cur : ConsoleLink) (h : c.Get ctx key s = (Except.ok cur, s1)) :
    storeAfterRuns c ctx key cl mutate (n + 1) s
      = storeAfterRuns c ctx key cl mutate n (c.Update ctx (mutate cur cl) s1).2 := by
  simp [storeAfterRuns, h]

theorem storeAfterRuns_succ_error {σ : Type} (c : Client σ) (ctx : Context) (key : ObjectKey)
    (cl : ConsoleLink) (mutate : MutateConsoleLinkFunc) (n : Nat) (s s1 : σ)
    (e : Err) (h : c.Get ctx key s = (Except.error e, s1)) :
    storeAfterRuns c ctx key cl mutate (n + 1) s = storeAfterRuns c ctx key cl mutate n s1 := by
  simp [storeAfterRuns, h]

/-- The retry loop when every re-fetch succeeds and every `Update` is answered
with a Conflict: all `n + 1` runs are made, on the stores the client passes
through, and the error returned is the answer of the last `Update`. -/
theorem onError_always_conflict_last {σ : Type} (ctx : Context) (c : Client σ)
    (cl : ConsoleLink) (key : ObjectKey) (mutate : MutateConsoleLinkFunc)
    (hGet : ∀ s, ∃ cur, (c.Get ctx key s).1 = Except.ok cur)
    (hConflict : ∀ s obj, ∃ e, (c.Update ctx obj s).1 = some e ∧ apierrors.IsConflict e = true) :
    ∀ (n : Nat) (lastErr : Option Err) (w : World σ),
      ∃ curs cur e, curs.length = n + 1
        ∧ refetches c ctx key cl mutate (n + 1) w.store = curs.map some
        ∧ (c.Get ctx key (storeAfterRuns c ctx key cl mutate n w.store)).1 = Except.ok cur
        ∧ (c.Update ctx (mutate cur cl)
            (c.Get ctx key (storeAfterRuns c ctx key cl mutate n w.store)).2).1 = some e
        ∧ apierrors.IsConflict e = true
        ∧ retry.OnError (n + 1) apierrors.IsConflict (updateAttempt ctx c cl key mutate) lastErr w
            = (some e, ⟨storeAfterRuns c ctx key cl mutate (n + 1) w.store,
                w.calls ++ attemptCalls ctx key cl mutate curs⟩) := by
  intro n
  induction n with
  | zero =>
    intro lastErr w
    obtain ⟨cur, hcur⟩ := hGet w.store
    have hP : c.Get ctx key w.store = (Except.ok cur, (c.Get ctx key w.store).2) :=
      Prod.ext hcur rfl
    have hA := updateAttempt_of_get_ok ctx c cl key mutate w cur _ hP
    obtain ⟨e, hU, he⟩ := hConflict (c.Get ctx key w.store).2 (mutate cur cl)
    refine ⟨[cur], cur, e, rfl, ?_, hcur, hU, he, ?_⟩
    · rw [refetches_succ_ok c ctx key cl mutate 0 _ _ cur hP]
      simp [refetches]
    · rw [storeAfterRuns_succ_ok c ctx key cl mutate 0 _ _ cur hP]
      simp [retry.OnError, hA, hU, he, attemptCalls, storeAfterRuns]
  | succ n ih =>
    intro lastErr w
    obtain ⟨cur, hcur⟩ := hGet w.store
    have hP : c.Get ctx key w.store = (Except.ok cur, (c.Get ctx key w.store).2) :=
      Prod.ext hcur rfl
    have hA := updateAttempt_of_get_ok ctx c cl key mutate w cur _ hP
    obtain ⟨e, hU, he⟩ := hConflict (c.Get ctx key w.store).2 (mutate cur cl)
    obtain ⟨curs, cur1, e1, hlen, hre, hg, hu, he1, hrun⟩ := ih (some e)
      ⟨(c.Update ctx (mutate cur cl) (c.Get ctx key w.store).2).2,
        w.calls ++ [Call.Get ctx key, Call.mutate cur cl, Call.Update ctx (mutate cur cl)]⟩
    refine ⟨cur :: curs, cur1, e1, by simp [hlen], ?_, ?_, ?_, he1, ?_⟩
    · rw [refetches_succ_ok c ctx key cl mutate (n + 1) _ _ cur hP]
      simpa using hre
    · rw [storeAfterRuns_succ_ok c ctx key cl mutate n _ _ cur hP]
      exact hg
    · rw [storeAfterRuns_succ_ok c ctx key cl mutate n _ _ cur hP]
      exact hu
    · rw [retry.OnError, storeAfterRuns_succ_ok c ctx key cl mutate (n + 1) _ _ cur hP]
      simp [hA, hU, he, hrun, attemptCalls]

/-- C3. Conflict convergence: let `updates` count the `Update` calls a store
has received (unchanged by `Get`, one more after each `Update`, zero at the
start). If every `Get` succeeds, `equal` is false on the initially fetched
object, and `Update` answers Conflict while fewer than `K` updates were
received and nil at the next one, with `K` below the retry budget of
`retry.DefaultRetry`, then the call returns nil; after the initial `Get` and
the `equal` call it has run the closure `K + 1` times, each run being a
re-fetch, `mutate` on the re-fetched object and the `Update` of the result:
exactly `K + 1` further `Get`s and `K + 1` `Update`s. -/
theorem createOrUpdate_conflict_convergence {σ : Type} (ctx : Context) (c : Client σ)
    (cl : ConsoleLink) (equal : ConsoleLinkEqualityFunc) (mutate : MutateConsoleLinkFunc)
    (w : World σ) (K : Nat) (updates : σ → Nat)
    (hK : K < retry.DefaultRetry.Steps)
    (hStart : updates w.store = 0)
    (hGet : ∀ s, ∃ cur, (c.Get ctx { Name := cl.Name } s).1 = Except.ok cur
      ∧ updates (c.Get ctx { Name := cl.Name } s).2 = updates s)
    (hEqual : ∀ cur, (c.Get ctx { Name := cl.Name } w.store).1 = Except.ok cur →
      equal cur cl = false)
    (hCount : ∀ s obj, updates (c.Update ctx obj s).2 = updates s + 1)
    (hConflict : ∀ s obj, updates s < K →
      ∃ e, (c.Update ctx obj s).1 = some e ∧ apierrors.IsConflict e = true)
    (hOk : ∀ s obj, updates s = K → (c.Update ctx obj s).1 = none) :
    ∃ cur0 curs w1, curs.length = K + 1
      ∧ CreateOrUpdateConsoleLink ctx c cl equal mutate w = (none, w1)
      ∧ w1.calls = w.calls ++ [Call.Get ctx { Name := cl.Name }, Call.equal cur0 cl]
          ++ attemptCalls ctx { Name := cl.Name } cl mutate curs
      ∧ (attemptCalls ctx { Name := cl.Name } cl mutate curs).countP Call.isGet = K + 1
      ∧ (attemptCalls ctx { Name := cl.Name } cl mutate curs).countP Call.isUpdate = K + 1 := by
  obtain ⟨cur0, hcur0, hupd0⟩ := hGet w.store
  have hG := doGet_eq c ctx { Name := cl.Name } w _ _
    (Prod.ext hcur0 rfl : c.Get ctx { Name := cl.Name } w.store = (_, _))
  have hE := hEqual cur0 hcur0
  obtain ⟨curs, w1, hlen, hrun, hcalls⟩ :=
    onError_conflicts_then_success ctx c cl { Name := cl.Name } mutate K updates hGet hCount
      hConflict hOk K retry.DefaultRetry.Steps none
      ⟨(c.Get ctx { Name := cl.Name } w.store).2,
        w.calls ++ [Call.Get ctx { Name := cl.Name }, Call.equal cur0 cl]⟩
      hK (by simp only; omega)
  refine ⟨cur0, curs, w1, hlen, ?_, hcalls, ?_, ?_⟩
  · simp [CreateOrUpdateConsoleLink, hG, callEqual, hE, retry.RetryOnConflict, hrun]
  · rw [attemptCalls_countP_isGet, hlen]
  · rw [attemptCalls_countP_isUpdate, hlen]

/-- Witness for C3 with `K = 2`: the first two `Update`s are answered Conflict. -/
theorem createOrUpdate_conflict_convergence_witness :
    ∃ cur0 curs w1, curs.length = 2 + 1
      ∧ CreateOrUpdateConsoleLink (Context.supplied 0) (conflictsThenOkClient 2)
          (sampleLink "x" "b") (fun a b => a.Spec == b.Spec) MutateConsoleLinkSpecOnly ⟨0, []⟩
          = (none, w1)
      ∧ w1.calls = [] ++ [Call.Get (Context.supplied 0) { Name := (sampleLink "x" "b").Name },
            Call.equal cur0 (sampleLink "x" "b")]
          ++ attemptCalls (Context.supplied 0) { Name := (sampleLink "x" "b").Name }
              (sampleLink "x" "b") MutateConsoleLinkSpecOnly curs
      ∧ (attemptCalls (Context.supplied 0) { Name := (sampleLink "x" "b").Name }
            (sampleLink "x" "b") MutateConsoleLinkSpecOnly curs).countP Call.isGet = 2 + 1
      ∧ (attemptCalls (Context.supplied 0) { Name := (sampleLink "x" "b").Name }
            (sampleLink "x" "b") MutateConsoleLinkSpecOnly curs).countP Call.isUpdate = 2 + 1 :=
  createOrUpdate_conflict_convergence (Context.supplied 0) (conflictsThenOkClient 2)
    (sampleLink "x" "b") (fun a b => a.Spec == b.Spec) MutateConsoleLinkSpecOnly ⟨0, []⟩ 2
    (fun n => n) (by decide) rfl
    (fun _ => ⟨sampleLink "x" "a", rfl, rfl⟩)
    (fun cur h => by
      have hc : cur = sampleLink "x" "a" := by
        simp only [conflictsThenOkClient, scriptedClient, Except.ok.injEq] at h
        exact h.symm
      subst hc
      decide)
    (fun _ _ => rfl)
    (fun s _ h => ⟨Err.status StatusReason.Conflict "stale",
      by simp [conflictsThenOkClient, scriptedClient, h], rfl⟩)
    (fun s _ h => by simp [conflictsThenOkClient, scriptedClient, h])

/-- C4, as the code has it. Retry exhaustion: when every `Get` succeeds,
`equal` is false on the initially fetched object and every `Update` is
answered with a Conflict, the call fails after exactly 5 runs of the closure
(5 re-fetches, 5 `Update`s), made on the stores the client passes through. The
error is the answer of the fifth `Update`, the one of `mutate` applied to the
fifth re-fetched object, wrapped as "failed to update consolelink" with the
object's name: the same wrapper as for an update failure that is not
retried. -/
theorem createOrUpdate_retry_exhaustion {σ : Type} (ctx : Context) (c : Client σ)
    (cl : ConsoleLink) (equal : ConsoleLinkEqualityFunc) (mutate : MutateConsoleLinkFunc)
    (w : World σ)
    (hGet : ∀ s, ∃ cur, (c.Get ctx { Name := cl.Name } s).1 = Except.ok cur)
    (hEqual : ∀ cur, (c.Get ctx { Name := cl.Name } w.store).1 = Except.ok cur →
      equal cur cl = false)
    (hConflict : ∀ s obj,
      ∃ e, (c.Update ctx obj s).1 = some e ∧ apierrors.IsConflict e = true) :
    ∃ cur0 curs cur e, curs.length = 5 ∧ apierrors.IsConflict e = true
      ∧ (c.Get ctx { Name := cl.Name } w.store).1 = Except.ok cur0
      ∧ refetches c ctx { Name := cl.Name } cl mutate 5
          (c.Get ctx { Name := cl.Name } w.store).2 = curs.map some
      ∧ (c.Get ctx { Name := cl.Name }
          (storeAfterRuns c ctx { Name := cl.Name } cl mutate 4
            (c.Get ctx { Name := cl.Name } w.store).2)).1 = Except.ok cur
      ∧ (c.Update ctx (mutate cur cl)
          (c.Get ctx { Name := cl.Name }
            (storeAfterRuns c ctx { Name := cl.Name } cl mutate 4
              (c.Get ctx { Name := cl.Name } w.store).2)).2).1 = some e
      ∧ CreateOrUpdateConsoleLink ctx c cl equal mutate w
          = (some (kverrors.Wrap e "failed to update consolelink" [("name", cl.Name)]),
              ⟨storeAfterRuns c ctx { Name := cl.Name } cl mutate 5
                (c.Get ctx { Name := cl.Name } w.store).2,
                w.calls ++ [Call.Get ctx { Name := cl.Name }, Call.equal cur0 cl]
                  ++ attemptCalls ctx { Name := cl.Name } cl mutate curs⟩)
      ∧ (attemptCalls ctx { Name := cl.Name } cl mutate curs).countP Call.isGet = 5
      ∧ (attemptCalls ctx { Name := cl.Name } cl mutate curs).countP Call.isUpdate = 5 := by
  obtain ⟨cur0, hcur0⟩ := hGet w.store
  have hG := doGet_eq c ctx { Name := cl.Name } w _ _
    (Prod.ext hcur0 rfl : c.Get ctx { Name := cl.Name } w.store = (_, _))
  have hE := hEqual cur0 hcur0
  obtain ⟨curs, cur, e, hlen, hre, hg, hu, he, hrun⟩ :=
    onError_always_conflict_last ctx c cl { Name := cl.Name } mutate hGet hConflict 4 none
      ⟨(c.Get ctx { Name := cl.Name } w.store).2,
        w.calls ++ [Call.Get ctx { Name := cl.Name }, Call.equal cur0 cl]⟩
  refine ⟨cur0, curs, cur, e, hlen, he, hcur0, hre, hg, hu, ?_, ?_, ?_⟩
  · simp [CreateOrUpdateConsoleLink, hG, callEqual, hE, retry.RetryOnConflict,
      retry.DefaultRetry, hrun]
  · rw [attemptCalls_countP_isGet, hlen]
  · rw [attemptCalls_countP_isUpdate, hlen]

/-- Witness for C4 as amended: every `Update` is answered with a Conflict that
tells which `Update` it was, and the error returned carries the fifth. -/
theorem createOrUpdate_retry_exhaustion_witness :
    (∃ cur0 curs cur e, curs.length = 5 ∧ apierrors.IsConflict e = true
      ∧ (numberedConflictClient.Get (Context.supplied 0)
          { Name := (sampleLink "x" "b").Name } 0).1 = Except.ok cur0
      ∧ refetches numberedConflictClient (Context.supplied 0)
          { Name := (sampleLink "x" "b").Name } (sampleLink "x" "b") MutateConsoleLinkSpecOnly 5
          (numberedConflictClient.Get (Context.supplied 0)
            { Name := (sampleLink "x" "b").Name } 0).2 = curs.map some
      ∧ (numberedConflictClient.Get (Context.supplied 0) { Name := (sampleLink "x" "b").Name }
          (storeAfterRuns numberedConflictClient (Context.supplied 0)
            { Name := (sampleLink "x" "b").Name } (sampleLink "x" "b")
            MutateConsoleLinkSpecOnly 4
            (numberedConflictClient.Get (Context.supplied 0)
              { Name := (sampleLink "x" "b").Name } 0).2)).1 = Except.ok cur
      ∧ (numberedConflictClient.Update (Context.supplied 0)
          (MutateConsoleLinkSpecOnly cur (sampleLink "x" "b"))
          (numberedConflictClient.Get (Context.supplied 0) { Name := (sampleLink "x" "b").Name }
            (storeAfterRuns numberedConflictClient (Context.supplied 0)
              { Name := (sampleLink "x" "b").Name } (sampleLink "x" "b")
              MutateConsoleLinkSpecOnly 4
              (numberedConflictClient.Get (Context.supplied 0)
                { Name := (sampleLink "x" "b").Name } 0).2)).2).1 = some e
      ∧ CreateOrUpdateConsoleLink (Context.supplied 0) numberedConflictClient
          (sampleLink "x" "b") (fun a b => a.Spec == b.Spec) MutateConsoleLinkSpecOnly ⟨0, []⟩
          = (some (kverrors.Wrap e "failed to update consolelink"
              [("name", (sampleLink "x" "b").Name)]),
              ⟨storeAfterRuns numberedConflictClient (Context.supplied 0)
                { Name := (sampleLink "x" "b").Name } (sampleLink "x" "b")
                MutateConsoleLinkSpecOnly 5
                (numberedConflictClient.Get (Context.supplied 0)
                  { Name := (sampleLink "x" "b").Name } 0).2,
                [] ++ [Call.Get (Context.supplied 0) { Name := (sampleLink "x" "b").Name },
                    Call.equal cur0 (sampleLink "x" "b")]
                  ++ attemptCalls (Context.supplied 0) { Name := (sampleLink "x" "b").Name }
                      (sampleLink "x" "b") MutateConsoleLinkSpecOnly curs⟩)
      ∧ (attemptCalls (Context.supplied 0) { Name := (sampleLink "x" "b").Name }
            (sampleLink "x" "b") MutateConsoleLinkSpecOnly curs).countP Call.isGet = 5
      ∧ (attemptCalls (Context.supplied 0) { Name := (sampleLink "x" "b").Name }
            (sampleLink "x" "b") MutateConsoleLinkSpecOnly curs).countP Call.isUpdate = 5)
    ∧ (CreateOrUpdateConsoleLink (Context.supplied 0) numberedConflictClient
          (sampleLink "x" "b") (fun a b => a.Spec == b.Spec) MutateConsoleLinkSpecOnly
          ⟨0, []⟩).1
        = some (kverrors.Wrap (Err.status StatusReason.Conflict "fifth")
            "failed to update consolelink" [("name", "x")])
    ∧ (CreateOrUpdateConsoleLink (Context.supplied 0) numberedConflictClient
          (sampleLink "x" "b") (fun a b => a.Spec == b.Spec) MutateConsoleLinkSpecOnly
          ⟨0, []⟩).2.store = 5 :=
  ⟨createOrUpdate_retry_exhaustion (Context.supplied 0) numberedConflictClient
      (sampleLink "x" "b") (fun a b => a.Spec == b.Spec) MutateConsoleLinkSpecOnly ⟨0, []⟩
      (fun _ => ⟨sampleLink "x" "a", rfl⟩)
      (fun cur h => by
        have hc : cur = sampleLink "x" "a" := by
          simp only [numberedConflictClient, scriptedClient, Except.ok.injEq] at h
          exact h.symm
        subst hc
        decide)
      (fun s _ => ⟨Err.status StatusReason.Conflict
        (["first", "second", "third", "fourth", "fifth"].getD s "later"), rfl, rfl⟩),
    by decide, by decide⟩

/-- C4 as stated fails: the error returned when the retry budget is used up
(every `Update` answered Conflict) carries the very wrapper, message and
key/values, of the error returned for an update failure that is not retried
(the `Update` answered Forbidden); the code has no outcome of its own for
retry exhaustion. -/
theorem createOrUpdate_exhaustion_same_outcome_as_update_failure :
    (CreateOrUpdateConsoleLink (Context.supplied 0) alwaysConflictClient (sampleLink "x" "b")
        (fun a b => a.Spec == b.Spec) MutateConsoleLinkSpecOnly ⟨0, []⟩).1
      = some (kverrors.Wrap (Err.status StatusReason.Conflict "stale")
          "failed to update consolelink" [("name", "x")])
    ∧ (CreateOrUpdateConsoleLink (Context.supplied 0) updateDeniedClient (sampleLink "x" "b")
        (fun a b => a.Spec == b.Spec) MutateConsoleLinkSpecOnly ⟨0, []⟩).1
      = some (kverrors.Wrap (Err.status StatusReason.Forbidden "denied")
          "failed to update consolelink" [("name", "x")])
    ∧ ¬ (Option.map Err.label
          (CreateOrUpdateConsoleLink (Context.supplied 0) alwaysConflictClient
            (sampleLink "x" "b") (fun a b => a.Spec == b.Spec) MutateConsoleLinkSpecOnly
            ⟨0, []⟩).1
        ≠ Option.map Err.label
          (CreateOrUpdateConsoleLink (Context.supplied 0) updateDeniedClient
            (sampleLink "x" "b") (fun a b => a.Spec == b.Spec) MutateConsoleLinkSpecOnly
            ⟨0, []⟩).1) := by
  refine ⟨by decide, by decide, by decide⟩

/-- The path through a successful initial `Get` and a true `equal`. -/
theorem createOrUpdate_of_get_ok_equal {σ : Type} (ctx : Context) (c : Client σ)
    (cl : ConsoleLink) (equal : ConsoleLinkEqualityFunc) (mutate : MutateConsoleLinkFunc)
    (w : World σ) (current : ConsoleLink) (s1 : σ)
    (hGet : c.Get ctx { Name := cl.Name } w.store = (Except.ok current, s1))
    (hEqual : equal current cl = true) :
    CreateOrUpdateConsoleLink ctx c cl equal mutate w
      = (none, ⟨s1, w.calls ++ [Call.Get ctx { Name := cl.Name }, Call.equal current cl]⟩) := by
  have hG := doGet_eq c ctx { Name := cl.Name } w _ _ hGet
  simp [CreateOrUpdateConsoleLink, hG, callEqual, hEqual]

theorem storeLookup_name (s : List ConsoleLink) (name : String) (cur : ConsoleLink)
    (h : storeLookup s name = some cur) : cur.Name = name := by
  have := List.find?_some h
  simpa using this

theorem storeLookup_storePut (s : List ConsoleLink) (obj : ConsoleLink) :
    storeLookup (storePut s obj) obj.Name = some obj := by
  simp [storeLookup, storePut]

/-- C8 as stated fails: on the faithful store holding a link "x" with a label,
with whole-object equality and the spec-only mutation, a first call for a
desired "x" with another text succeeds, and the immediately following call
with the same desired object finds `equal` false on the stored object (it
still carries the label) and issues an `Update`. -/
theorem createOrUpdate_second_call_updates_again :
    (CreateOrUpdateConsoleLink (Context.supplied 0) faithfulStore (sampleLink "x" "b")
        (fun a b => decide (a = b)) MutateConsoleLinkSpecOnly ⟨[labelledLink], []⟩).1 = none
    ∧ (CreateOrUpdateConsoleLink (Context.supplied 0) faithfulStore (sampleLink "x" "b")
        (fun a b => decide (a = b)) MutateConsoleLinkSpecOnly
        ⟨(CreateOrUpdateConsoleLink (Context.supplied 0) faithfulStore (sampleLink "x" "b")
            (fun a b => decide (a = b)) MutateConsoleLinkSpecOnly
            ⟨[labelledLink], []⟩).2.store, []⟩).2.calls
      = [Call.Get (Context.supplied 0) { Name := "x" },
         Call.equal (MutateConsoleLinkSpecOnly labelledLink (sampleLink "x" "b"))
           (sampleLink "x" "b"),
         Call.Get (Context.supplied 0) { Name := "x" },
         Call.mutate (MutateConsoleLinkSpecOnly labelledLink (sampleLink "x" "b"))
           (sampleLink "x" "b"),
         Call.Update (Context.supplied 0)
           (MutateConsoleLinkSpecOnly labelledLink (sampleLink "x" "b"))]
    ∧ decide (MutateConsoleLinkSpecOnly labelledLink (sampleLink "x" "b") = sampleLink "x" "b")
      = false := by
  refine ⟨by decide, by decide, by decide⟩

/-- C8, as the code has it. Idempotence over the faithful store, for an
equality and a mutation that return on every input (they are total functions
here) and agree on the desired object: `equal` holds of
the desired object and itself, and for every current object of the desired
name `mutate` keeps the name and makes `equal` hold. Then a first call
succeeds, and an immediately following call with the same desired object
makes one `Get`, finds `equal` true, makes no `Create` and no `Update`, and
leaves the store as it was. -/
theorem createOrUpdate_idempotent (ctx1 ctx2 : Context) (cl : ConsoleLink)
    (equal : ConsoleLinkEqualityFunc) (mutate : MutateConsoleLinkFunc) (s : List ConsoleLink)
    (hRefl : equal cl cl = true)
    (hMutate : ∀ cur, cur.Name = cl.Name →
      equal (mutate cur cl) cl = true ∧ (mutate cur cl).Name = cl.Name) :
    (CreateOrUpdateConsoleLink ctx1 faithfulStore cl equal mutate ⟨s, []⟩).1 = none
    ∧ ∃ cur, equal cur cl = true
      ∧ CreateOrUpdateConsoleLink ctx2 faithfulStore cl equal mutate
          ⟨(CreateOrUpdateConsoleLink ctx1 faithfulStore cl equal mutate ⟨s, []⟩).2.store, []⟩
        = (none,
            ⟨(CreateOrUpdateConsoleLink ctx1 faithfulStore cl equal mutate ⟨s, []⟩).2.store,
              [Call.Get ctx2 { Name := cl.Name }, Call.equal cur cl]⟩) := by
  cases hL : storeLookup s cl.Name with
  | none =>
    have hR : CreateOrUpdateConsoleLink ctx1 faithfulStore cl equal mutate ⟨s, []⟩
        = (none, ⟨storePut s cl,
            [Call.Get ctx1 { Name := cl.Name }, Call.Create ctx1 cl]⟩) := by
      simp [CreateOrUpdateConsoleLink, doGet, doCreate, faithfulStore, hL,
        apierrors.IsNotFound, apierrors.ReasonForError]
    rw [hR]
    refine ⟨rfl, cl, hRefl, ?_⟩
    have h2 := createOrUpdate_of_get_ok_equal ctx2 faithfulStore cl equal mutate
      ⟨storePut s cl, []⟩ cl (storePut s cl)
      (by simp [faithfulStore, storeLookup_storePut]) hRefl
    simpa using h2
  | some cur =>
    have hN := storeLookup_name s cl.Name cur hL
    cases hE : equal cur cl with
    | true =>
      have h1 := createOrUpdate_of_get_ok_equal ctx1 faithfulStore cl equal mutate
        ⟨s, []⟩ cur s (by simp [faithfulStore, hL]) hE
      have h2 := createOrUpdate_of_get_ok_equal ctx2 faithfulStore cl equal mutate
        ⟨s, []⟩ cur s (by simp [faithfulStore, hL]) hE
      rw [h1]
      exact ⟨rfl, cur, hE, by simpa using h2⟩
    | false =>
      obtain ⟨hM, hMN⟩ := hMutate cur hN
      have hL2 : storeLookup s (mutate cur cl).Name = some cur := by rw [hMN]; exact hL
      have hR : CreateOrUpdateConsoleLink ctx1 faithfulStore cl equal mutate ⟨s, []⟩
          = (none, ⟨storePut s (mutate cur cl),
              [Call.Get ctx1 { Name := cl.Name }, Call.equal cur cl,
               Call.Get ctx1 { Name := cl.Name }, Call.mutate cur cl,
               Call.Update ctx1 (mutate cur cl)]⟩) := by
        simp [CreateOrUpdateConsoleLink, doGet, callEqual, hE, retry.RetryOnConflict,
          retry.DefaultRetry, retry.OnError, updateAttempt, callMutate, doUpdate,
          faithfulStore, hL, hL2]
      rw [hR]
      refine ⟨rfl, mutate cur cl, hM, ?_⟩
      have hL3 : storeLookup (storePut s (mutate cur cl)) cl.Name = some (mutate cur cl) := by
        rw [← hMN]; exact storeLookup_storePut s (mutate cur cl)
      have h2 := createOrUpdate_of_get_ok_equal ctx2 faithfulStore cl equal mutate
        ⟨storePut s (mutate cur cl), []⟩ (mutate cur cl) (storePut s (mutate cur cl))
        (by simp [faithfulStore, hL3]) hM
      simpa using h2

/-- Witness for C8 as amended: the first call creates "x" in the empty store. -/
theorem createOrUpdate_idempotent_witness :
    (CreateOrUpdateConsoleLink (Context.supplied 0) faithfulStore (sampleLink "x" "a")
        (fun a b => a.Spec == b.Spec) MutateConsoleLinkSpecOnly ⟨[], []⟩).1 = none
    ∧ ∃ cur, (fun a b => a.Spec == b.Spec) cur (sampleLink "x" "a") = true
      ∧ CreateOrUpdateConsoleLink (Context.supplied 1) faithfulStore (sampleLink "x" "a")
          (fun a b => a.Spec == b.Spec) MutateConsoleLinkSpecOnly
          ⟨(CreateOrUpdateConsoleLink (Context.supplied 0) faithfulStore (sampleLink "x" "a")
              (fun a b => a.Spec == b.Spec) MutateConsoleLinkSpecOnly ⟨[], []⟩).2.store, []⟩
        = (none,
            ⟨(CreateOrUpdateConsoleLink (Context.supplied 0) faithfulStore (sampleLink "x" "a")
                (fun a b => a.Spec == b.Spec) MutateConsoleLinkSpecOnly ⟨[], []⟩).2.store,
              [Call.Get (Context.supplied 1) { Name := (sampleLink "x" "a").Name },
               Call.equal cur (sampleLink "x" "a")]⟩) :=
  createOrUpdate_idempotent (Context.supplied 0) (Context.supplied 1) (sampleLink "x" "a")
    (fun a b => a.Spec == b.Spec) MutateConsoleLinkSpecOnly []
    (by decide)
    (fun cur h => ⟨by simp [MutateConsoleLinkSpecOnly],
      by simpa [MutateConsoleLinkSpecOnly, ConsoleLink.Name] using h⟩)

/-- C9. Guarded deletion skip: when `ConsoleLinkEnabled` reports false,
`DeleteKibanaConsoleLink` returns nil, and the calls it has made are the one
schema read of the probe and the log line: no `Delete` at all; the store is as
the probe left it. -/
theorem deleteKibanaConsoleLink_skip {σ : Type}
    (NewConsoleLink : String → String → String → String → String → ConsoleLink)
    (ctx : Context) (c : Client σ) (w : World σ)
    (hDisabled : (ConsoleLinkEnabled c w).1 = false) :
    (DeleteKibanaConsoleLink NewConsoleLink ctx c w).1 = none
      ∧ (DeleteKibanaConsoleLink NewConsoleLink ctx c w).2.calls
          = w.calls ++ [Call.GetCRD Context.TODO { Name := "consolelinks.console.openshift.io" },
              Call.LogInfo "Console CRD is not found, skipping console link deletion"]
      ∧ (DeleteKibanaConsoleLink NewConsoleLink ctx c w).2.calls.countP Call.isDelete
          = w.calls.countP Call.isDelete
      ∧ (DeleteKibanaConsoleLink NewConsoleLink ctx c w).2.store
          = (c.GetCRD Context.TODO { Name := "consolelinks.console.openshift.io" } w.store).2 := by
  have hP : ConsoleLinkEnabled c w = (false, (ConsoleLinkEnabled c w).2) :=
    Prod.ext hDisabled rfl
  have hW : (ConsoleLinkEnabled c w).2
      = ⟨(c.GetCRD Context.TODO { Name := "consolelinks.console.openshift.io" } w.store).2,
          w.calls ++ [Call.GetCRD Context.TODO { Name := "consolelinks.console.openshift.io" }]⟩ := by
    simp [ConsoleLinkEnabled, doGetCRD]
  rw [hW] at hP
  simp [DeleteKibanaConsoleLink, hP, logInfo, Call.isDelete, List.countP_append,
    List.countP_cons]

/-- Witness for C9: the schema read is answered NotFound. -/
theorem deleteKibanaConsoleLink_skip_witness :
    (DeleteKibanaConsoleLink sampleNewConsoleLink (Context.supplied 0) schemaAbsentClient
        ⟨0, []⟩).1 = none
      ∧ (DeleteKibanaConsoleLink sampleNewConsoleLink (Context.supplied 0) schemaAbsentClient
          ⟨0, []⟩).2.calls
          = [] ++ [Call.GetCRD Context.TODO { Name := "consolelinks.console.openshift.io" },
              Call.LogInfo "Console CRD is not found, skipping console link deletion"]
      ∧ (DeleteKibanaConsoleLink sampleNewConsoleLink (Context.supplied 0) schemaAbsentClient
          ⟨0, []⟩).2.calls.countP Call.isDelete
          = ([] : List Call).countP Call.isDelete
      ∧ (DeleteKibanaConsoleLink sampleNewConsoleLink (Context.supplied 0) schemaAbsentClient
          ⟨0, []⟩).2.store
          = (schemaAbsentClient.GetCRD Context.TODO
              { Name := "consolelinks.console.openshift.io" } 0).2 :=
  deleteKibanaConsoleLink_skip sampleNewConsoleLink (Context.supplied 0) schemaAbsentClient
    ⟨0, []⟩ rfl

/-- C10. Idempotent delete, failing only on other errors: when
`ConsoleLinkEnabled` reports true (and the constructor `NewConsoleLink` gives
its result the name it is handed), `DeleteKibanaConsoleLink` makes, after the
probe's schema read, exactly one `Delete`, of an object named
"kibana-public-url", with the caller's context. It returns an error if and
only if that `Delete` fails with an error other than NotFound, and the error
is then the cause wrapped as "failed to delete consolelink" with that name; a
NotFound or a successful `Delete` gives nil. -/
theorem deleteKibanaConsoleLink_enabled {σ : Type}
    (NewConsoleLink : String → String → String → String → String → ConsoleLink)
    (ctx : Context) (c : Client σ) (w : World σ)
    (hName : ∀ name href text icon sect,
      (NewConsoleLink name href text icon sect).Name = name)
    (hEnabled : (ConsoleLinkEnabled c w).1 = true) :
    ∃ obj, obj.Name = "kibana-public-url"
      ∧ (DeleteKibanaConsoleLink NewConsoleLink ctx c w).2.calls
          = w.calls ++ [Call.GetCRD Context.TODO { Name := "consolelinks.console.openshift.io" },
              Call.Delete ctx obj]
      ∧ (DeleteKibanaConsoleLink NewConsoleLink ctx c w).2.store
          = (c.Delete ctx obj (ConsoleLinkEnabled c w).2.store).2
      ∧ (∀ e, (c.Delete ctx obj (ConsoleLinkEnabled c w).2.store).1 = some e →
          apierrors.IsNotFound e = false →
          (DeleteKibanaConsoleLink NewConsoleLink ctx c w).1
            = some (kverrors.Wrap e "failed to delete consolelink"
                [("name", "kibana-public-url")]))
      ∧ (∀ e, (c.Delete ctx obj (ConsoleLinkEnabled c w).2.store).1 = some e →
          apierrors.IsNotFound e = true →
          (DeleteKibanaConsoleLink NewConsoleLink ctx c w).1 = none)
      ∧ ((c.Delete ctx obj (ConsoleLinkEnabled c w).2.store).1 = none →
          (DeleteKibanaConsoleLink NewConsoleLink ctx c w).1 = none)
      ∧ ((DeleteKibanaConsoleLink NewConsoleLink ctx c w).1.isSome = true ↔
          ∃ e, (c.Delete ctx obj (ConsoleLinkEnabled c w).2.store).1 = some e
            ∧ apierrors.IsNotFound e = false) := by
  have hP : ConsoleLinkEnabled c w = (true, (ConsoleLinkEnabled c w).2) :=
    Prod.ext hEnabled rfl
  have hW : (ConsoleLinkEnabled c w).2
      = ⟨(c.GetCRD Context.TODO { Name := "consolelinks.console.openshift.io" } w.store).2,
          w.calls ++ [Call.GetCRD Context.TODO { Name := "consolelinks.console.openshift.io" }]⟩ := by
    simp [ConsoleLinkEnabled, doGetCRD]
  rw [hW] at hP
  rw [hW]
  refine ⟨NewConsoleLink KibanaConsoleLinkName "" "" "" "", ?_, ?_⟩
  · rw [hName]; rfl
  · simp only [DeleteKibanaConsoleLink, hP, doDelete]
    cases hD : (c.Delete ctx (NewConsoleLink KibanaConsoleLinkName "" "" "" "")
        (c.GetCRD Context.TODO { Name := "consolelinks.console.openshift.io" } w.store).2).1 with
    | none => simp
    | some e =>
      cases hNF : apierrors.IsNotFound e <;> simp [hNF, KibanaConsoleLinkName]

/-- Witness for C10: the probe finds the schema entry and the `Delete` is
answered Forbidden. -/
theorem deleteKibanaConsoleLink_enabled_witness :
    ∃ obj, obj.Name = "kibana-public-url"
      ∧ (DeleteKibanaConsoleLink sampleNewConsoleLink (Context.supplied 0) deleteDeniedClient
          ⟨0, []⟩).2.calls
          = [] ++ [Call.GetCRD Context.TODO { Name := "consolelinks.console.openshift.io" },
              Call.Delete (Context.supplied 0) obj]
      ∧ (DeleteKibanaConsoleLink sampleNewConsoleLink (Context.supplied 0) deleteDeniedClient
          ⟨0, []⟩).2.store
          = (deleteDeniedClient.Delete (Context.supplied 0) obj
              (ConsoleLinkEnabled deleteDeniedClient ⟨0, []⟩).2.store).2
      ∧ (∀ e, (deleteDeniedClient.Delete (Context.supplied 0) obj
              (ConsoleLinkEnabled deleteDeniedClient ⟨0, []⟩).2.store).1 = some e →
          apierrors.IsNotFound e = false →
          (DeleteKibanaConsoleLink sampleNewConsoleLink (Context.supplied 0) deleteDeniedClient
            ⟨0, []⟩).1
            = some (kverrors.Wrap e "failed to delete consolelink"
                [("name", "kibana-public-url")]))
      ∧ (∀ e, (deleteDeniedClient.Delete (Context.supplied 0) obj
              (ConsoleLinkEnabled deleteDeniedClient ⟨0, []⟩).2.store).1 = some e →
          apierrors.IsNotFound e = true →
          (DeleteKibanaConsoleLink sampleNewConsoleLink (Context.supplied 0) deleteDeniedClient
            ⟨0, []⟩).1 = none)
      ∧ ((deleteDeniedClient.Delete (Context.supplied 0) obj
              (ConsoleLinkEnabled deleteDeniedClient ⟨0, []⟩).2.store).1 = none →
          (DeleteKibanaConsoleLink sampleNewConsoleLink (Context.supplied 0) deleteDeniedClient
            ⟨0, []⟩).1 = none)
      ∧ ((DeleteKibanaConsoleLink sampleNewConsoleLink (Context.supplied 0) deleteDeniedClient
            ⟨0, []⟩).1.isSome = true ↔
          ∃ e, (deleteDeniedClient.Delete (Context.supplied 0) obj
              (ConsoleLinkEnabled deleteDeniedClient ⟨0, []⟩).2.store).1 = some e
            ∧ apierrors.IsNotFound e = false) :=
  deleteKibanaConsoleLink_enabled sampleNewConsoleLink (Context.supplied 0) deleteDeniedClient
    ⟨0, []⟩ (fun _ _ _ _ _ => rfl) rfl

/-- C11. The capability probe degrades to false: `ConsoleLinkEnabled` makes
exactly one read of the schema registry, keyed by
"consolelinks.console.openshift.io", and answers true exactly when that read
returns no error; any error gives false, and the answer is a boolean, so no
error reaches the caller. -/
theorem consoleLinkEnabled_single_read {σ : Type} (c : Client σ) (w : World σ) :
    ConsoleLinkEnabled c w
        = ((c.GetCRD Context.TODO { Name := "consolelinks.console.openshift.io" } w.store).1.isNone,
            ⟨(c.GetCRD Context.TODO { Name := "consolelinks.console.openshift.io" } w.store).2,
              w.calls ++ [Call.GetCRD Context.TODO { Name := "consolelinks.console.openshift.io" }]⟩)
      ∧ ((ConsoleLinkEnabled c w).1 = true ↔
          (c.GetCRD Context.TODO { Name := "consolelinks.console.openshift.io" } w.store).1 = none)
      ∧ (∀ e, (c.GetCRD Context.TODO { Name := "consolelinks.console.openshift.io" } w.store).1
            = some e → (ConsoleLinkEnabled c w).1 = false) := by
  refine ⟨by simp [ConsoleLinkEnabled, doGetCRD], ?_, ?_⟩
  · simp [ConsoleLinkEnabled, doGetCRD, Option.isNone_iff_eq_none]
  · intro e he
    simp [ConsoleLinkEnabled, doGetCRD, he]

/-- What `ConsoleLinksEqual` decides: it returns true exactly when location,
link text and link href are equal and both sides have an application menu
block with equal sections; and its result is the same for any other pair that
agrees with this one on those four fields, whatever the name, the metadata,
the version token, the menu image or the namespace dashboard. -/
theorem consoleLinksEqual_four_fields (current desired : ConsoleLink) :
    (ConsoleLinksEqual current desired = some true ↔
        current.Spec.Location = desired.Spec.Location
        ∧ current.Spec.Link.Text = desired.Spec.Link.Text
        ∧ current.Spec.Link.Href = desired.Spec.Link.Href
        ∧ ∃ currentMenu desiredMenu, current.Spec.ApplicationMenu = some currentMenu
            ∧ desired.Spec.ApplicationMenu = some desiredMenu
            ∧ currentMenu.Section = desiredMenu.Section)
      ∧ (∀ current1 desired1 : ConsoleLink,
          current1.Spec.Location = current.Spec.Location →
          current1.Spec.Link.Text = current.Spec.Link.Text →
          current1.Spec.Link.Href = current.Spec.Link.Href →
          current1.Spec.ApplicationMenu.map (fun m => m.Section)
            = current.Spec.ApplicationMenu.map (fun m => m.Section) →
          desired1.Spec.Location = desired.Spec.Location →
          desired1.Spec.Link.Text = desired.Spec.Link.Text →
          desired1.Spec.Link.Href = desired.Spec.Link.Href →
          desired1.Spec.ApplicationMenu.map (fun m => m.Section)
            = desired.Spec.ApplicationMenu.map (fun m => m.Section) →
          ConsoleLinksEqual current1 desired1 = ConsoleLinksEqual current desired) := by
  constructor
  · unfold ConsoleLinksEqual
    by_cases h1 : current.Spec.Location = desired.Spec.Location
    · by_cases h2 : current.Spec.Link.Text = desired.Spec.Link.Text
      · by_cases h3 : current.Spec.Link.Href = desired.Spec.Link.Href
        · cases h4 : current.Spec.ApplicationMenu <;> cases h5 : desired.Spec.ApplicationMenu <;>
            simp [h1, h2, h3]
        · simp [h1, h2, h3]
      · simp [h1, h2]
    · simp [h1]
  · intro current1 desired1 a1 a2 a3 a4 b1 b2 b3 b4
    unfold ConsoleLinksEqual
    rw [a1, a2, a3, b1, b2, b3]
    cases h4 : current.Spec.ApplicationMenu <;> cases h5 : desired.Spec.ApplicationMenu <;>
      cases h6 : current1.Spec.ApplicationMenu <;> cases h7 : desired1.Spec.ApplicationMenu <;>
      simp_all

/-- C15. `MutateConsoleLinkSpecOnly` copies only the spec: the new current has
the desired object's spec, and its type block and its metadata, with name and
version token, are those of the old current. The desired object is only
read. -/
theorem mutateConsoleLinkSpecOnly_frame (current desired : ConsoleLink) :
    (MutateConsoleLinkSpecOnly current desired).Spec = desired.Spec
      ∧ (MutateConsoleLinkSpecOnly current desired).TypeMeta = current.TypeMeta
      ∧ (MutateConsoleLinkSpecOnly current desired).ObjectMeta = current.ObjectMeta
      ∧ (MutateConsoleLinkSpecOnly current desired).Name = current.Name
      ∧ (MutateConsoleLinkSpecOnly current desired).ObjectMeta.ResourceVersion
          = current.ObjectMeta.ResourceVersion :=
  ⟨rfl, rfl, rfl, rfl, rfl⟩

/-- C14, at the failing input: two help-menu links that differ in name only
agree on location, link text, link href and application menu section (neither
has an application menu block), and `ConsoleLinksEqual` does not return true
for them: it returns nothing, the nil block being dereferenced. -/
theorem consoleLinksEqual_not_true_on_equal_fields :
    (helpLink "x" "a").Spec.Location = (helpLink "y" "a").Spec.Location
      ∧ (helpLink "x" "a").Spec.Link.Text = (helpLink "y" "a").Spec.Link.Text
      ∧ (helpLink "x" "a").Spec.Link.Href = (helpLink "y" "a").Spec.Link.Href
      ∧ (helpLink "x" "a").Spec.ApplicationMenu.map (fun m => m.Section)
          = (helpLink "y" "a").Spec.ApplicationMenu.map (fun m => m.Section)
      ∧ ConsoleLinksEqual (helpLink "x" "a") (helpLink "y" "a") = none := by
  decide

/-- C18, at the failing input: for two help-menu links with equal location,
text and href and no application menu block, `ConsoleLinksEqual` does not
return a boolean: the nil block is dereferenced. -/
theorem consoleLinksEqual_aborts_without_application_menu :
    ConsoleLinksEqual (helpLink "x" "a") (helpLink "x" "a") = none := by
  decide

/-- Where the desired object has an application menu block, the default
mutation establishes the default equality. -/
theorem consoleLinksEqual_of_mutate_with_menu (current desired : ConsoleLink)
    (menu : ApplicationMenuSpec) (h : desired.Spec.ApplicationMenu = some menu) :
    ConsoleLinksEqual (MutateConsoleLinkSpecOnly current desired) desired = some true := by
  simp [ConsoleLinksEqual, MutateConsoleLinkSpecOnly, h]

/-- Applying the default mutation a second time changes nothing. -/
theorem mutateConsoleLinkSpecOnly_idempotent (current desired : ConsoleLink) :
    MutateConsoleLinkSpecOnly (MutateConsoleLinkSpecOnly current desired) desired
      = MutateConsoleLinkSpecOnly current desired :=
  rfl

/-- C19, at the failing input: after `MutateConsoleLinkSpecOnly` with a desired
help-menu link that has no application menu block, `ConsoleLinksEqual` of the
mutated current and the desired object does not return true: the copied nil
block is dereferenced. -/
theorem consoleLinksEqual_after_mutate_aborts :
    ConsoleLinksEqual (MutateConsoleLinkSpecOnly (sampleLink "x" "a") (helpLink "x" "b"))
      (helpLink "x" "b") = none := by
  decide

/-- One run of the retried closure whose re-fetch fails: the `Get` is the only
call, and its error comes back wrapped as "failed to get consolelink". -/
theorem updateAttempt_of_get_error {σ : Type} (ctx : Context) (c : Client σ)
    (cl : ConsoleLink) (key : ObjectKey) (mutate : MutateConsoleLinkFunc) (w : World σ)
    (e : Err) (s1 : σ) (hGet : c.Get ctx key w.store = (Except.error e, s1)) :
    updateAttempt ctx c cl key mutate w
      = (some (kverrors.Wrap e "failed to get consolelink" [("name", cl.Name)]),
          ⟨s1, w.calls ++ [Call.Get ctx key]⟩) := by
  have hG := doGet_eq c ctx key w _ _ hGet
  simp [updateAttempt, hG]

/-- The calls of any run of the retry loop: at most `n` runs of the closure,
at least one when `n` is positive. -/
theorem onError_calls {σ : Type} (ctx : Context) (c : Client σ) (cl : ConsoleLink)
    (key : ObjectKey) (mutate : MutateConsoleLinkFunc) :
    ∀ (n : Nat) (lastErr : Option Err) (w : World σ),
      ∃ iters, iters.length ≤ n ∧ (0 < n → iters ≠ [])
        ∧ (retry.OnError n apierrors.IsConflict (updateAttempt ctx c cl key mutate)
            lastErr w).2.calls = w.calls ++ iterCalls ctx key cl mutate iters := by
  intro n
  induction n with
  | zero =>
    intro lastErr w
    exact ⟨[], by simp, by simp, by simp [retry.OnError, iterCalls]⟩
  | succ n ih =>
    intro lastErr w
    cases hR : (c.Get ctx key w.store).1 with
    | error e =>
      have hA := updateAttempt_of_get_error ctx c cl key mutate w e (c.Get ctx key w.store).2
        (Prod.ext hR rfl)
      by_cases hC : apierrors.IsConflict
          (kverrors.Wrap e "failed to get consolelink" [("name", cl.Name)]) = true
      · obtain ⟨iters, hlen, _, hcalls⟩ := ih
          (some (kverrors.Wrap e "failed to get consolelink" [("name", cl.Name)]))
          ⟨(c.Get ctx key w.store).2, w.calls ++ [Call.Get ctx key]⟩
        refine ⟨none :: iters, by simp [hlen], by simp, ?_⟩
        rw [retry.OnError]
        simp [hA, hC, hcalls, iterCalls]
      · refine ⟨[none], by simp, by simp, ?_⟩
        rw [retry.OnError]
        simp [hA, hC, iterCalls]
    | ok cur =>
      have hA := updateAttempt_of_get_ok ctx c cl key mutate w cur (c.Get ctx key w.store).2
        (Prod.ext hR rfl)
      cases hU : (c.Update ctx (mutate cur cl) (c.Get ctx key w.store).2).1 with
      | none =>
        refine ⟨[some cur], by simp, by simp, ?_⟩
        rw [retry.OnError]
        simp [hA, hU, iterCalls]
      | some e =>
        by_cases hC : apierrors.IsConflict e = true
        · obtain ⟨iters, hlen, _, hcalls⟩ := ih (some e)
            ⟨(c.Update ctx (mutate cur cl) (c.Get ctx key w.store).2).2,
              w.calls ++ [Call.Get ctx key, Call.mutate cur cl,
                Call.Update ctx (mutate cur cl)]⟩
          refine ⟨some cur :: iters, by simp [hlen], by simp, ?_⟩
          rw [retry.OnError]
          simp [hA, hU, hC, hcalls, iterCalls]
        · refine ⟨[some cur], by simp, by simp, ?_⟩
          rw [retry.OnError]
          simp [hA, hU, hC, iterCalls]

theorem iterCalls_get_key (ctx : Context) (key : ObjectKey) (cl : ConsoleLink)
    (mutate : MutateConsoleLinkFunc) (iters : List (Option ConsoleLink)) :
    ∀ ctx1 key1, Call.Get ctx1 key1 ∈ iterCalls ctx key cl mutate iters → key1 = key := by
  induction iters with
  | nil => simp [iterCalls]
  | cons it rest ih =>
    cases it with
    | none =>
      intro ctx1 key1 hc
      simp only [iterCalls, List.mem_cons] at hc
      rcases hc with h | hc
      · injection h with _ h2
      · exact ih ctx1 key1 hc
    | some cur =>
      intro ctx1 key1 hc
      simp only [iterCalls, List.mem_cons] at hc
      rcases hc with h | h | h | hc
      · injection h with _ h2
      · cases h
      · cases h
      · exact ih ctx1 key1 hc

theorem iterCalls_no_create (ctx : Context) (key : ObjectKey) (cl : ConsoleLink)
    (mutate : MutateConsoleLinkFunc) (iters : List (Option ConsoleLink)) :
    ∀ ctx1 obj, Call.Create ctx1 obj ∉ iterCalls ctx key cl mutate iters := by
  induction iters with
  | nil => simp [iterCalls]
  | cons it rest ih =>
    cases it with
    | none =>
      intro ctx1 obj hc
      simp only [iterCalls, List.mem_cons] at hc
      rcases hc with h | hc
      · cases h
      · exact ih ctx1 obj hc
    | some cur =>
      intro ctx1 obj hc
      simp only [iterCalls, List.mem_cons] at hc
      rcases hc with h | h | h | hc
      · cases h
      · cases h
      · cases h
      · exact ih ctx1 obj hc

theorem iterCalls_countP_isEqual (ctx : Context) (key : ObjectKey) (cl : ConsoleLink)
    (mutate : MutateConsoleLinkFunc) (iters : List (Option ConsoleLink)) :
    (iterCalls ctx key cl mutate iters).countP Call.isEqual = 0 := by
  induction iters with
  | nil => rfl
  | cons it rest ih =>
    cases it <;> simp [iterCalls, Call.isEqual, ih]

/-- The calls of `CreateOrUpdateConsoleLink` when the initial `Get` succeeds:
the `Get`, the `equal` call on the fetched object, and the runs of the retried
closure (none when `equal` is true, between one and five otherwise). -/
theorem createOrUpdate_calls_of_get_ok {σ : Type} (ctx : Context) (c : Client σ)
    (cl : ConsoleLink) (equal : ConsoleLinkEqualityFunc) (mutate : MutateConsoleLinkFunc)
    (w : World σ) (cur0 : ConsoleLink)
    (hR : (c.Get ctx { Name := cl.Name } w.store).1 = Except.ok cur0) :
    ∃ iters, iters.length ≤ 5
      ∧ (equal cur0 cl = true → iters = [])
      ∧ (equal cur0 cl = false → iters ≠ [])
      ∧ (CreateOrUpdateConsoleLink ctx c cl equal mutate w).2.calls
        = w.calls ++ Call.Get ctx { Name := cl.Name } :: Call.equal cur0 cl ::
            iterCalls ctx { Name := cl.Name } cl mutate iters := by
  have hG := doGet_eq c ctx { Name := cl.Name } w _ _
    (Prod.ext hR rfl : c.Get ctx { Name := cl.Name } w.store = (_, _))
  cases hE : equal cur0 cl with
  | true =>
    refine ⟨[], by simp, by simp, by simp, ?_⟩
    simp [CreateOrUpdateConsoleLink, hG, callEqual, hE, iterCalls]
  | false =>
    obtain ⟨iters, hlen, hne, hcalls⟩ :=
      onError_calls ctx c cl { Name := cl.Name } mutate 5 none
        ⟨(c.Get ctx { Name := cl.Name } w.store).2,
          w.calls ++ [Call.Get ctx { Name := cl.Name }, Call.equal cur0 cl]⟩
    refine ⟨iters, hlen, by simp, fun _ => hne (by decide), ?_⟩
    simp only [CreateOrUpdateConsoleLink, hG, callEqual, hE, retry.RetryOnConflict,
      retry.DefaultRetry]
    generalize hO : retry.OnError 5 apierrors.IsConflict
      (updateAttempt ctx c cl { Name := cl.Name } mutate) none
      ⟨(c.Get ctx { Name := cl.Name } w.store).2,
        w.calls ++ [Call.Get ctx { Name := cl.Name }] ++ [Call.equal cur0 cl]⟩ = r
    have hcalls2 : r.2.calls = w.calls ++ Call.Get ctx { Name := cl.Name } ::
        Call.equal cur0 cl :: iterCalls ctx { Name := cl.Name } cl mutate iters := by
      rw [← hO]
      simpa using hcalls
    rcases r with ⟨_ | e, w3⟩ <;> simpa using hcalls2

/-- The three shapes of the calls of `CreateOrUpdateConsoleLink`: the failed
`Get` alone; the `Get` and the `Create` of the desired object; or the `Get`,
the `equal` call on the fetched object, and the runs of the retried closure
(none when `equal` is true, between one and five otherwise). -/
theorem createOrUpdate_calls_shape {σ : Type} (ctx : Context) (c : Client σ)
    (cl : ConsoleLink) (equal : ConsoleLinkEqualityFunc) (mutate : MutateConsoleLinkFunc)
    (w : World σ) :
    (CreateOrUpdateConsoleLink ctx c cl equal mutate w).2.calls
        = w.calls ++ [Call.Get ctx { Name := cl.Name }]
      ∨ (CreateOrUpdateConsoleLink ctx c cl equal mutate w).2.calls
        = w.calls ++ [Call.Get ctx { Name := cl.Name }, Call.Create ctx cl]
      ∨ ∃ cur0 iters, (c.Get ctx { Name := cl.Name } w.store).1 = Except.ok cur0
          ∧ iters.length ≤ 5
          ∧ (equal cur0 cl = true → iters = [])
          ∧ (equal cur0 cl = false → iters ≠ [])
          ∧ (CreateOrUpdateConsoleLink ctx c cl equal mutate w).2.calls
            = w.calls ++ Call.Get ctx { Name := cl.Name } :: Call.equal cur0 cl ::
                iterCalls ctx { Name := cl.Name } cl mutate iters := by
  cases hR : (c.Get ctx { Name := cl.Name } w.store).1 with
  | error e =>
    have hG := doGet_eq c ctx { Name := cl.Name } w _ _
      (Prod.ext hR rfl : c.Get ctx { Name := cl.Name } w.store = (_, _))
    by_cases hN : apierrors.IsNotFound e = true
    · right; left
      simp only [CreateOrUpdateConsoleLink, hG, hN, if_true, doCreate]
      cases hC : (c.Create ctx cl (c.Get ctx { Name := cl.Name } w.store).2).1 <;> simp
    · left
      simp [CreateOrUpdateConsoleLink, hG, hN]
  | ok cur0 =>
    right; right
    obtain ⟨iters, h1, h2, h3, h4⟩ :=
      createOrUpdate_calls_of_get_ok ctx c cl equal mutate w cur0 hR
    exact ⟨cur0, iters, rfl, h1, h2, h3, h4⟩

/-- Every error `CreateOrUpdateConsoleLink` returns is one of its three
wrappers around a cause, with the desired object's name. -/
theorem createOrUpdate_error_shape {σ : Type} (ctx : Context) (c : Client σ)
    (cl : ConsoleLink) (equal : ConsoleLinkEqualityFunc) (mutate : MutateConsoleLinkFunc)
    (w : World σ) (e : Err)
    (h : (CreateOrUpdateConsoleLink ctx c cl equal mutate w).1 = some e) :
    ∃ cause msg, e = kverrors.Wrap cause msg [("name", cl.Name)]
      ∧ (msg = "failed to get consolelink" ∨ msg = "failed to create consolelink"
          ∨ msg = "failed to update consolelink") := by
  unfold CreateOrUpdateConsoleLink at h
  simp only at h
  split at h
  · split at h
    · split at h
      · simp at h
      · rename_i err1 _ _
        simp only [Option.some.injEq] at h
        exact ⟨err1, _, h.symm, Or.inr (Or.inl rfl)⟩
    · rename_i err _ _ _
      simp only [Option.some.injEq] at h
      exact ⟨err, _, h.symm, Or.inl rfl⟩
  · split at h
    · split at h
      · rename_i err _ _
        simp only [Option.some.injEq] at h
        exact ⟨err, _, h.symm, Or.inr (Or.inr rfl)⟩
      · simp at h
    · simp at h

/-- C17. Identity is stable across retries: in every run of
`CreateOrUpdateConsoleLink`, every `Get` it makes, the initial one and each
re-fetch, is keyed by the name of the desired object, an object passed to
`Create` is the desired object itself, and every error returned is a wrapper
naming that same name. -/
theorem createOrUpdate_identity_stable {σ : Type} (ctx : Context) (c : Client σ)
    (cl : ConsoleLink) (equal : ConsoleLinkEqualityFunc) (mutate : MutateConsoleLinkFunc)
    (w : World σ) :
    ∃ new, (CreateOrUpdateConsoleLink ctx c cl equal mutate w).2.calls = w.calls ++ new
      ∧ (∀ ctx1 key1, Call.Get ctx1 key1 ∈ new → key1 = { Name := cl.Name })
      ∧ (∀ ctx1 obj, Call.Create ctx1 obj ∈ new → obj = cl)
      ∧ (∀ e, (CreateOrUpdateConsoleLink ctx c cl equal mutate w).1 = some e →
          ∃ cause msg, e = kverrors.Wrap cause msg [("name", cl.Name)]) := by
  have hErr : ∀ e, (CreateOrUpdateConsoleLink ctx c cl equal mutate w).1 = some e →
      ∃ cause msg, e = kverrors.Wrap cause msg [("name", cl.Name)] := by
    intro e he
    obtain ⟨cause, msg, h, _⟩ := createOrUpdate_error_shape ctx c cl equal mutate w e he
    exact ⟨cause, msg, h⟩
  rcases createOrUpdate_calls_shape ctx c cl equal mutate w with h | h | ⟨cur0, iters, _, _, _, _, h⟩
  · refine ⟨_, h, ?_, ?_, hErr⟩
    · intro ctx1 key1 hm
      simp only [List.mem_singleton] at hm
      injection hm with _ h2
    · intro ctx1 obj hm
      simp at hm
  · refine ⟨_, h, ?_, ?_, hErr⟩
    · intro ctx1 key1 hm
      simp only [List.mem_cons, List.mem_singleton] at hm
      rcases hm with hm | hm | hm
      · injection hm with _ h2
      · cases hm
      · simp at hm
    · intro ctx1 obj hm
      simp only [List.mem_cons, List.mem_singleton] at hm
      rcases hm with hm | hm | hm
      · cases hm
      · injection hm with _ h2
      · simp at hm
  · refine ⟨_, h, ?_, ?_, hErr⟩
    · intro ctx1 key1 hm
      simp only [List.mem_cons] at hm
      rcases hm with hm | hm | hm
      · injection hm with _ h2
      · cases hm
      · exact iterCalls_get_key ctx { Name := cl.Name } cl mutate iters ctx1 key1 hm
    · intro ctx1 obj hm
      simp only [List.mem_cons] at hm
      rcases hm with hm | hm | hm
      · cases hm
      · cases hm
      · exact absurd hm (iterCalls_no_create ctx { Name := cl.Name } cl mutate iters ctx1 obj)

/-- Any run of the retry loop makes some `m` runs of the closure, at most `n`
and at least one when `n` is positive, and these are the runs the client
answers to: on a successful re-fetch the `Get`, `mutate` and the `Update` of
the mutated object, on a failed one the `Get` alone, each on the store the
run before left. -/
theorem onError_runs {σ : Type} (ctx : Context) (c : Client σ) (cl : ConsoleLink)
    (key : ObjectKey) (mutate : MutateConsoleLinkFunc) :
    ∀ (n : Nat) (lastErr : Option Err) (w : World σ),
      ∃ m, m ≤ n ∧ (0 < n → 0 < m)
        ∧ (retry.OnError n apierrors.IsConflict (updateAttempt ctx c cl key mutate)
            lastErr w).2.store = storeAfterRuns c ctx key cl mutate m w.store
        ∧ (retry.OnError n apierrors.IsConflict (updateAttempt ctx c cl key mutate)
            lastErr w).2.calls
          = w.calls ++ iterCalls ctx key cl mutate (refetches c ctx key cl mutate m w.store) := by
  intro n
  induction n with
  | zero =>
    intro lastErr w
    exact ⟨0, by simp, by simp, by simp [retry.OnError, storeAfterRuns],
      by simp [retry.OnError, refetches, iterCalls]⟩
  | succ n ih =>
    intro lastErr w
    cases hR : (c.Get ctx key w.store).1 with
    | error e =>
      have hP : c.Get ctx key w.store = (Except.error e, (c.Get ctx key w.store).2) :=
        Prod.ext hR rfl
      have hA := updateAttempt_of_get_error ctx c cl key mutate w e _ hP
      by_cases hC : apierrors.IsConflict
          (kverrors.Wrap e "failed to get consolelink" [("name", cl.Name)]) = true
      · obtain ⟨m, hm, _, hstore, hcalls⟩ := ih
          (some (kverrors.Wrap e "failed to get consolelink" [("name", cl.Name)]))
          ⟨(c.Get ctx key w.store).2, w.calls ++ [Call.Get ctx key]⟩
        refine ⟨m + 1, by omega, by omega, ?_, ?_⟩
        · rw [retry.OnError, storeAfterRuns_succ_error c ctx key cl mutate m _ _ e hP]
          simpa [hA, hC] using hstore
        · rw [retry.OnError, refetches_succ_error c ctx key cl mutate m _ _ e hP]
          simp [hA, hC, hcalls, iterCalls]
      · refine ⟨1, by omega, by omega, ?_, ?_⟩
        · rw [retry.OnError, storeAfterRuns_succ_error c ctx key cl mutate 0 _ _ e hP]
          simp [hA, hC, storeAfterRuns]
        · rw [retry.OnError, refetches_succ_error c ctx key cl mutate 0 _ _ e hP]
          simp [hA, hC, refetches, iterCalls]
    | ok cur =>
      have hP : c.Get ctx key w.store = (Except.ok cur, (c.Get ctx key w.store).2) :=
        Prod.ext hR rfl
      have hA := updateAttempt_of_get_ok ctx c cl key mutate w cur _ hP
      cases hU : (c.Update ctx (mutate cur cl) (c.Get ctx key w.store).2).1 with
      | none =>
        refine ⟨1, by omega, by omega, ?_, ?_⟩
        · rw [retry.OnError, storeAfterRuns_succ_ok c ctx key cl mutate 0 _ _ cur hP]
          simp [hA, hU, storeAfterRuns]
        · rw [retry.OnError, refetches_succ_ok c ctx key cl mutate 0 _ _ cur hP]
          simp [hA, hU, refetches, iterCalls]
      | some e =>
        by_cases hC : apierrors.IsConflict e = true
        · obtain ⟨m, hm, _, hstore, hcalls⟩ := ih (some e)
            ⟨(c.Update ctx (mutate cur cl) (c.Get ctx key w.store).2).2,
              w.calls ++ [Call.Get ctx key, Call.mutate cur cl,
                Call.Update ctx (mutate cur cl)]⟩
          refine ⟨m + 1, by omega, by omega, ?_, ?_⟩
          · rw [retry.OnError, storeAfterRuns_succ_ok c ctx key cl mutate m _ _ cur hP]
            simpa [hA, hU, hC] using hstore
          · rw [retry.OnError, refetches_succ_ok c ctx key cl mutate m _ _ cur hP]
            simp [hA, hU, hC, hcalls, iterCalls]
        · refine ⟨1, by omega, by omega, ?_, ?_⟩
          · rw [retry.OnError, storeAfterRuns_succ_ok c ctx key cl mutate 0 _ _ cur hP]
            simp [hA, hU, hC, storeAfterRuns]
          · rw [retry.OnError, refetches_succ_ok c ctx key cl mutate 0 _ _ cur hP]
            simp [hA, hU, hC, refetches, iterCalls]

/-- C16. Equality is not re-evaluated inside the retry loop: when the initial
`Get` succeeds, the calls are that `Get`, one `equal` call on the object it
returned, and then `m` runs of the retried closure and nothing else: no run
when `equal` was true, between one and five when it was false. The runs are
the ones the client answers to, `refetches` being read off the client alone:
each run whose re-fetch succeeds is the `Get`, `mutate` on the re-fetched
object and the `Update` of the result, made on the store as that re-fetch left
it, whatever `equal` would say of the re-fetched object; a run whose re-fetch
fails is the `Get` alone. No run calls `equal`, and the store is left as the
last run left it. -/
theorem createOrUpdate_equal_called_once {σ : Type} (ctx : Context) (c : Client σ)
    (cl : ConsoleLink) (equal : ConsoleLinkEqualityFunc) (mutate : MutateConsoleLinkFunc)
    (w : World σ) (cur0 : ConsoleLink) (s1 : σ)
    (hGet : c.Get ctx { Name := cl.Name } w.store = (Except.ok cur0, s1)) :
    ∃ m, m ≤ 5
      ∧ (equal cur0 cl = true → m = 0)
      ∧ (equal cur0 cl = false → 1 ≤ m)
      ∧ (CreateOrUpdateConsoleLink ctx c cl equal mutate w).2.store
          = storeAfterRuns c ctx { Name := cl.Name } cl mutate m s1
      ∧ (CreateOrUpdateConsoleLink ctx c cl equal mutate w).2.calls
        = w.calls ++ Call.Get ctx { Name := cl.Name } :: Call.equal cur0 cl ::
            iterCalls ctx { Name := cl.Name } cl mutate
              (refetches c ctx { Name := cl.Name } cl mutate m s1)
      ∧ (Call.Get ctx { Name := cl.Name } :: Call.equal cur0 cl ::
            iterCalls ctx { Name := cl.Name } cl mutate
              (refetches c ctx { Name := cl.Name } cl mutate m s1)).countP Call.isEqual = 1
      ∧ (∀ (w1 : World σ) (cur : ConsoleLink) (s2 : σ),
          c.Get ctx { Name := cl.Name } w1.store = (Except.ok cur, s2) →
          (updateAttempt ctx c cl { Name := cl.Name } mutate w1).2.calls
            = w1.calls ++ [Call.Get ctx { Name := cl.Name }, Call.mutate cur cl,
                Call.Update ctx (mutate cur cl)]) := by
  have hG := doGet_eq c ctx { Name := cl.Name } w _ _ hGet
  have hCount : ∀ m, (Call.Get ctx { Name := cl.Name } :: Call.equal cur0 cl ::
      iterCalls ctx { Name := cl.Name } cl mutate
        (refetches c ctx { Name := cl.Name } cl mutate m s1)).countP Call.isEqual = 1 := by
    intro m
    simp [List.countP_cons, Call.isEqual, iterCalls_countP_isEqual]
  have hRun : ∀ (w1 : World σ) (cur : ConsoleLink) (s2 : σ),
      c.Get ctx { Name := cl.Name } w1.store = (Except.ok cur, s2) →
      (updateAttempt ctx c cl { Name := cl.Name } mutate w1).2.calls
        = w1.calls ++ [Call.Get ctx { Name := cl.Name }, Call.mutate cur cl,
            Call.Update ctx (mutate cur cl)] := by
    intro w1 cur s2 h
    rw [updateAttempt_of_get_ok ctx c cl { Name := cl.Name } mutate w1 cur s2 h]
  cases hE : equal cur0 cl with
  | true =>
    refine ⟨0, by omega, by simp, by simp, ?_, ?_, hCount 0, hRun⟩
    · simp [CreateOrUpdateConsoleLink, hG, callEqual, hE, storeAfterRuns]
    · simp [CreateOrUpdateConsoleLink, hG, callEqual, hE, refetches, iterCalls]
  | false =>
    obtain ⟨m, hm, hpos, hstore, hcalls⟩ :=
      onError_runs ctx c cl { Name := cl.Name } mutate 5 none
        ⟨s1, w.calls ++ [Call.Get ctx { Name := cl.Name }, Call.equal cur0 cl]⟩
    have hShape : (CreateOrUpdateConsoleLink ctx c cl equal mutate w).2
        = (retry.OnError 5 apierrors.IsConflict
            (updateAttempt ctx c cl { Name := cl.Name } mutate) none
            ⟨s1, w.calls ++ [Call.Get ctx { Name := cl.Name }, Call.equal cur0 cl]⟩).2 := by
      simp only [CreateOrUpdateConsoleLink, hG, callEqual, hE, retry.RetryOnConflict,
        retry.DefaultRetry, List.append_assoc, List.singleton_append]
      generalize retry.OnError 5 apierrors.IsConflict
        (updateAttempt ctx c cl { Name := cl.Name } mutate) none
        ⟨s1, w.calls ++ [Call.Get ctx { Name := cl.Name }, Call.equal cur0 cl]⟩ = r
      rcases r with ⟨_ | e, w3⟩ <;> rfl
    refine ⟨m, hm, by simp, fun _ => hpos (by decide), ?_, ?_, hCount m, hRun⟩
    · rw [hShape]; exact hstore
    · rw [hShape]; simpa using hcalls

/-- Witness for C16: the store holds "a" at the initial `Get`; by the re-fetch
someone else has written the desired "b", `equal` would now be true, and the
`Update` is issued all the same. -/
theorem createOrUpdate_equal_called_once_witness :
    (∃ m, m ≤ 5
      ∧ ((fun a b => a.Spec == b.Spec) (sampleLink "x" "a") (sampleLink "x" "b") = true →
          m = 0)
      ∧ ((fun a b => a.Spec == b.Spec) (sampleLink "x" "a") (sampleLink "x" "b") = false →
          1 ≤ m)
      ∧ (CreateOrUpdateConsoleLink (Context.supplied 0) overtakenClient (sampleLink "x" "b")
          (fun a b => a.Spec == b.Spec) MutateConsoleLinkSpecOnly ⟨0, []⟩).2.store
          = storeAfterRuns overtakenClient (Context.supplied 0)
              { Name := (sampleLink "x" "b").Name } (sampleLink "x" "b")
              MutateConsoleLinkSpecOnly m 1
      ∧ (CreateOrUpdateConsoleLink (Context.supplied 0) overtakenClient (sampleLink "x" "b")
          (fun a b => a.Spec == b.Spec) MutateConsoleLinkSpecOnly ⟨0, []⟩).2.calls
        = [] ++ Call.Get (Context.supplied 0) { Name := (sampleLink "x" "b").Name } ::
            Call.equal (sampleLink "x" "a") (sampleLink "x" "b") ::
            iterCalls (Context.supplied 0) { Name := (sampleLink "x" "b").Name }
              (sampleLink "x" "b") MutateConsoleLinkSpecOnly
              (refetches overtakenClient (Context.supplied 0)
                { Name := (sampleLink "x" "b").Name } (sampleLink "x" "b")
                MutateConsoleLinkSpecOnly m 1)
      ∧ (Call.Get (Context.supplied 0) { Name := (sampleLink "x" "b").Name } ::
            Call.equal (sampleLink "x" "a") (sampleLink "x" "b") ::
            iterCalls (Context.supplied 0) { Name := (sampleLink "x" "b").Name }
              (sampleLink "x" "b") MutateConsoleLinkSpecOnly
              (refetches overtakenClient (Context.supplied 0)
                { Name := (sampleLink "x" "b").Name } (sampleLink "x" "b")
                MutateConsoleLinkSpecOnly m 1)).countP Call.isEqual = 1
      ∧ (∀ (w1 : World Nat) (cur : ConsoleLink) (s2 : Nat),
          overtakenClient.Get (Context.supplied 0) { Name := (sampleLink "x" "b").Name }
            w1.store = (Except.ok cur, s2) →
          (updateAttempt (Context.supplied 0) overtakenClient (sampleLink "x" "b")
              { Name := (sampleLink "x" "b").Name } MutateConsoleLinkSpecOnly w1).2.calls
            = w1.calls ++ [Call.Get (Context.supplied 0) { Name := (sampleLink "x" "b").Name },
                Call.mutate cur (sampleLink "x" "b"),
                Call.Update (Context.supplied 0)
                  (MutateConsoleLinkSpecOnly cur (sampleLink "x" "b"))]))
    ∧ (CreateOrUpdateConsoleLink (Context.supplied 0) overtakenClient (sampleLink "x" "b")
          (fun a b => a.Spec == b.Spec) MutateConsoleLinkSpecOnly ⟨0, []⟩).2.calls
        = [Call.Get (Context.supplied 0) { Name := "x" },
           Call.equal (sampleLink "x" "a") (sampleLink "x" "b"),
           Call.Get (Context.supplied 0) { Name := "x" },
           Call.mutate (sampleLink "x" "b") (sampleLink "x" "b"),
           Call.Update (Context.supplied 0)
             (MutateConsoleLinkSpecOnly (sampleLink "x" "b") (sampleLink "x" "b"))]
    ∧ (fun (a b : ConsoleLink) => a.Spec == b.Spec) (sampleLink "x" "b") (sampleLink "x" "b")
        = true :=
  ⟨createOrUpdate_equal_called_once (Context.supplied 0) overtakenClient (sampleLink "x" "b")
      (fun a b => a.Spec == b.Spec) MutateConsoleLinkSpecOnly ⟨0, []⟩ (sampleLink "x" "a") 1 rfl,
    by decide, by decide⟩

/-- When the retry loop returns nil after at least one run, its last run
re-fetched some `cur` and its `Update` of `mutate cur cl`, issued on the store
as that re-fetch left it, returned nil and left the final store. -/
theorem onError_success_last {σ : Type} (ctx : Context) (c : Client σ) (cl : ConsoleLink)
    (key : ObjectKey) (mutate : MutateConsoleLinkFunc) :
    ∀ (n : Nat) (lastErr : Option Err) (w w1 : World σ),
      retry.OnError n apierrors.IsConflict (updateAttempt ctx c cl key mutate) lastErr w
          = (none, w1) →
      (n = 0 ∧ lastErr = none ∧ w1 = w)
      ∨ ∃ iters cur sPre,
          w1.calls = w.calls ++ (iterCalls ctx key cl mutate iters
            ++ [Call.Get ctx key, Call.mutate cur cl, Call.Update ctx (mutate cur cl)])
          ∧ (c.Get ctx key sPre).1 = Except.ok cur
          ∧ c.Update ctx (mutate cur cl) (c.Get ctx key sPre).2 = (none, w1.store) := by
  intro n
  induction n with
  | zero =>
    intro lastErr w w1 h
    left
    simp only [retry.OnError, Prod.mk.injEq] at h
    exact ⟨rfl, h.1, h.2.symm⟩
  | succ n ih =>
    intro lastErr w w1 h
    right
    rw [retry.OnError] at h
    cases hR : (c.Get ctx key w.store).1 with
    | error e =>
      have hA := updateAttempt_of_get_error ctx c cl key mutate w e (c.Get ctx key w.store).2
        (Prod.ext hR rfl)
      rw [hA] at h
      by_cases hC : apierrors.IsConflict
          (kverrors.Wrap e "failed to get consolelink" [("name", cl.Name)]) = true
      · simp only [hC, if_true] at h
        rcases ih _ _ _ h with ⟨_, h0, _⟩ | ⟨iters, cur, sPre, hcalls, hg, hu⟩
        · cases h0
        · refine ⟨none :: iters, cur, sPre, ?_, hg, hu⟩
          simp [hcalls, iterCalls]
      · simp [hC] at h
    | ok cur =>
      have hA := updateAttempt_of_get_ok ctx c cl key mutate w cur (c.Get ctx key w.store).2
        (Prod.ext hR rfl)
      rw [hA] at h
      cases hU : (c.Update ctx (mutate cur cl) (c.Get ctx key w.store).2).1 with
      | none =>
        simp only [hU, Prod.mk.injEq, true_and] at h
        refine ⟨[], cur, w.store, ?_, hR, ?_⟩
        · rw [← h]
          simp [iterCalls]
        · rw [← h]
          exact Prod.ext hU rfl
      | some e1 =>
        simp only [hU] at h
        by_cases hC : apierrors.IsConflict e1 = true
        · simp only [hC, if_true] at h
          rcases ih _ _ _ h with ⟨_, h0, _⟩ | ⟨iters, cur1, sPre, hcalls, hg, hu⟩
          · cases h0
          · refine ⟨some cur :: iters, cur1, sPre, ?_, hg, hu⟩
            simp [hcalls, iterCalls]
        · simp [hC] at h

/-- C12. Success guarantee of the conflict-retry protocol: when the initial
`Get` succeeds, `equal` is false and the call returns nil, the calls end with
a run of the closure that re-fetched some `cur`, called `mutate` on it and
issued the `Update` of `mutate cur cl`; that `cur` is what the `Get` returned
on the store state of that run, and that `Update`, made on the store as the
re-fetch left it, returned nil and left the final store. And over the faithful
store, with `MutateConsoleLinkSpecOnly`, a call that finds an object of the
desired name with `equal` false succeeds and leaves under that name an object
whose spec is the desired spec. -/
theorem createOrUpdate_success_uses_last_refetch {σ : Type} (ctx : Context) (c : Client σ)
    (cl : ConsoleLink) (equal : ConsoleLinkEqualityFunc) (mutate : MutateConsoleLinkFunc)
    (w : World σ) (cur0 : ConsoleLink) (s1 : σ)
    (hGet : c.Get ctx { Name := cl.Name } w.store = (Except.ok cur0, s1))
    (hEqual : equal cur0 cl = false)
    (hSuccess : (CreateOrUpdateConsoleLink ctx c cl equal mutate w).1 = none) :
    (∃ iters cur sPre,
        (CreateOrUpdateConsoleLink ctx c cl equal mutate w).2.calls
          = w.calls ++ Call.Get ctx { Name := cl.Name } :: Call.equal cur0 cl ::
              (iterCalls ctx { Name := cl.Name } cl mutate iters
                ++ [Call.Get ctx { Name := cl.Name }, Call.mutate cur cl,
                    Call.Update ctx (mutate cur cl)])
        ∧ (c.Get ctx { Name := cl.Name } sPre).1 = Except.ok cur
        ∧ c.Update ctx (mutate cur cl) (c.Get ctx { Name := cl.Name } sPre).2
            = (none, (CreateOrUpdateConsoleLink ctx c cl equal mutate w).2.store))
      ∧ (∀ (s : List ConsoleLink) (old : ConsoleLink),
          storeLookup s cl.Name = some old → equal old cl = false →
          (CreateOrUpdateConsoleLink ctx faithfulStore cl equal MutateConsoleLinkSpecOnly
              ⟨s, []⟩).1 = none
          ∧ ∃ stored,
              storeLookup (CreateOrUpdateConsoleLink ctx faithfulStore cl equal
                MutateConsoleLinkSpecOnly ⟨s, []⟩).2.store cl.Name = some stored
              ∧ stored.Spec = cl.Spec) := by
  constructor
  · have hG := doGet_eq c ctx { Name := cl.Name } w _ _ hGet
    simp only [CreateOrUpdateConsoleLink, hG, callEqual, hEqual, retry.RetryOnConflict,
      retry.DefaultRetry] at hSuccess ⊢
    generalize hO : retry.OnError 5 apierrors.IsConflict
      (updateAttempt ctx c cl { Name := cl.Name } mutate) none
      ⟨s1, w.calls ++ [Call.Get ctx { Name := cl.Name }] ++ [Call.equal cur0 cl]⟩ = r
      at hSuccess ⊢
    rcases r with ⟨_ | e, w3⟩
    · rcases onError_success_last ctx c cl { Name := cl.Name } mutate 5 none _ w3 hO with
        ⟨h0, _, _⟩ | ⟨iters, cur, sPre, hcalls, hg, hu⟩
      · cases h0
      · refine ⟨iters, cur, sPre, ?_, hg, ?_⟩
        · simpa using hcalls
        · simpa using hu
    · simp at hSuccess
  · intro s old hL hE
    have hN := storeLookup_name s cl.Name old hL
    have hL2 : storeLookup s (MutateConsoleLinkSpecOnly old cl).Name = some old := by
      have : (MutateConsoleLinkSpecOnly old cl).Name = cl.Name := hN
      rw [this]; exact hL
    have hR : CreateOrUpdateConsoleLink ctx faithfulStore cl equal MutateConsoleLinkSpecOnly
          ⟨s, []⟩
        = (none, ⟨storePut s (MutateConsoleLinkSpecOnly old cl),
            [Call.Get ctx { Name := cl.Name }, Call.equal old cl,
             Call.Get ctx { Name := cl.Name }, Call.mutate old cl,
             Call.Update ctx (MutateConsoleLinkSpecOnly old cl)]⟩) := by
      simp [CreateOrUpdateConsoleLink, doGet, callEqual, hE, retry.RetryOnConflict,
        retry.DefaultRetry, retry.OnError, updateAttempt, callMutate, doUpdate,
        faithfulStore, hL, hL2]
    rw [hR]
    refine ⟨rfl, MutateConsoleLinkSpecOnly old cl, ?_, rfl⟩
    have hL3 := storeLookup_storePut s (MutateConsoleLinkSpecOnly old cl)
    have : (MutateConsoleLinkSpecOnly old cl).Name = cl.Name := hN
    rw [this] at hL3
    exact hL3

/-- Witness for C12: the object is relabelled by someone else between the
initial `Get` and the re-fetch, and the `Update` is of the mutated re-fetched
object, label included, not of the mutated initially fetched one; and on the
faithful store holding "a" the stored spec becomes the desired one. -/
theorem createOrUpdate_success_uses_last_refetch_witness :
    (∃ iters cur sPre,
        (CreateOrUpdateConsoleLink (Context.supplied 0) relabelledClient
            (sampleLink "x" "b") (fun a b => a.Spec == b.Spec) MutateConsoleLinkSpecOnly
            ⟨0, []⟩).2.calls
          = [] ++ Call.Get (Context.supplied 0) { Name := (sampleLink "x" "b").Name } ::
              Call.equal (sampleLink "x" "a") (sampleLink "x" "b") ::
              (iterCalls (Context.supplied 0) { Name := (sampleLink "x" "b").Name }
                  (sampleLink "x" "b") MutateConsoleLinkSpecOnly iters
                ++ [Call.Get (Context.supplied 0) { Name := (sampleLink "x" "b").Name },
                    Call.mutate cur (sampleLink "x" "b"),
                    Call.Update (Context.supplied 0)
                      (MutateConsoleLinkSpecOnly cur (sampleLink "x" "b"))])
        ∧ (relabelledClient.Get (Context.supplied 0)
            { Name := (sampleLink "x" "b").Name } sPre).1 = Except.ok cur
        ∧ relabelledClient.Update (Context.supplied 0)
            (MutateConsoleLinkSpecOnly cur (sampleLink "x" "b"))
            (relabelledClient.Get (Context.supplied 0)
              { Name := (sampleLink "x" "b").Name } sPre).2
            = (none, (CreateOrUpdateConsoleLink (Context.supplied 0) relabelledClient
                (sampleLink "x" "b") (fun a b => a.Spec == b.Spec) MutateConsoleLinkSpecOnly
                ⟨0, []⟩).2.store))
      ∧ ((CreateOrUpdateConsoleLink (Context.supplied 0) faithfulStore (sampleLink "x" "b")
            (fun a b => a.Spec == b.Spec) MutateConsoleLinkSpecOnly
            ⟨[sampleLink "x" "a"], []⟩).1 = none
        ∧ ∃ stored,
            storeLookup (CreateOrUpdateConsoleLink (Context.supplied 0) faithfulStore
              (sampleLink "x" "b") (fun a b => a.Spec == b.Spec) MutateConsoleLinkSpecOnly
              ⟨[sampleLink "x" "a"], []⟩).2.store (sampleLink "x" "b").Name = some stored
            ∧ stored.Spec = (sampleLink "x" "b").Spec)
      ∧ (CreateOrUpdateConsoleLink (Context.supplied 0) relabelledClient
            (sampleLink "x" "b") (fun a b => a.Spec == b.Spec) MutateConsoleLinkSpecOnly
            ⟨0, []⟩).2.calls
          = [Call.Get (Context.supplied 0) { Name := "x" },
             Call.equal (sampleLink "x" "a") (sampleLink "x" "b"),
             Call.Get (Context.supplied 0) { Name := "x" },
             Call.mutate labelledLink (sampleLink "x" "b"),
             Call.Update (Context.supplied 0)
               (MutateConsoleLinkSpecOnly labelledLink (sampleLink "x" "b"))]
      ∧ MutateConsoleLinkSpecOnly labelledLink (sampleLink "x" "b")
          ≠ MutateConsoleLinkSpecOnly (sampleLink "x" "a") (sampleLink "x" "b") :=
  ⟨(createOrUpdate_success_uses_last_refetch (Context.supplied 0) relabelledClient
      (sampleLink "x" "b") (fun a b => a.Spec == b.Spec) MutateConsoleLinkSpecOnly ⟨0, []⟩
      (sampleLink "x" "a") 1 rfl (by decide) (by decide)).1,
    (createOrUpdate_success_uses_last_refetch (Context.supplied 0) relabelledClient
      (sampleLink "x" "b") (fun a b => a.Spec == b.Spec) MutateConsoleLinkSpecOnly ⟨0, []⟩
      (sampleLink "x" "a") 1 rfl (by decide) (by decide)).2
      [sampleLink "x" "a"] (sampleLink "x" "a") rfl (by decide),
    by decide, by decide⟩

theorem attemptCalls_countP_isCreate (ctx : Context) (key : ObjectKey) (cl : ConsoleLink)
    (mutate : MutateConsoleLinkFunc) (curs : List ConsoleLink) :
    (attemptCalls ctx key cl mutate curs).countP Call.isCreate = 0 := by
  induction curs with
  | nil => rfl
  | cons cur rest ih => simp [attemptCalls, Call.isCreate, ih]

/-- The retry loop when `j` more runs meet a Conflict at `Update` and the
re-fetch of the run after them fails with an error that is not a Conflict,
`gets` counting the `Get`s received: the loop ends at that re-fetch, and the
error returned is the error of that `Get`, made on the store the `j` runs
left, wrapped as "failed to get consolelink". -/
theorem onError_conflicts_then_get_failure {σ : Type} (ctx : Context) (c : Client σ)
    (cl : ConsoleLink) (key : ObjectKey) (mutate : MutateConsoleLinkFunc) (K : Nat)
    (gets : σ → Nat)
    (hGetCount : ∀ s, gets (c.Get ctx key s).2 = gets s + 1)
    (hUpdateCount : ∀ s obj, gets (c.Update ctx obj s).2 = gets s)
    (hGetOk : ∀ s, gets s ≤ K → ∃ cur, (c.Get ctx key s).1 = Except.ok cur)
    (hGetFail : ∀ s, gets s = K + 1 →
      ∃ e, (c.Get ctx key s).1 = Except.error e ∧ apierrors.IsConflict e = false)
    (hConflict : ∀ s obj,
      ∃ e, (c.Update ctx obj s).1 = some e ∧ apierrors.IsConflict e = true) :
    ∀ (j n : Nat) (lastErr : Option Err) (w : World σ), j < n → gets w.store + j = K + 1 →
      ∃ curs e, curs.length = j ∧ apierrors.IsConflict e = false
        ∧ refetches c ctx key cl mutate (j + 1) w.store = curs.map some ++ [none]
        ∧ (c.Get ctx key (storeAfterRuns c ctx key cl mutate j w.store)).1 = Except.error e
        ∧ retry.OnError n apierrors.IsConflict (updateAttempt ctx c cl key mutate) lastErr w
            = (some (kverrors.Wrap e "failed to get consolelink" [("name", cl.Name)]),
                ⟨storeAfterRuns c ctx key cl mutate (j + 1) w.store,
                  w.calls ++ attemptCalls ctx key cl mutate curs ++ [Call.Get ctx key]⟩) := by
  intro j
  induction j with
  | zero =>
    intro n lastErr w hn hK
    obtain ⟨m, rfl⟩ : ∃ m, n = m + 1 := ⟨n - 1, by omega⟩
    obtain ⟨e, hR, he⟩ := hGetFail w.store (by omega)
    have hP : c.Get ctx key w.store = (Except.error e, (c.Get ctx key w.store).2) :=
      Prod.ext hR rfl
    have hA := updateAttempt_of_get_error ctx c cl key mutate w e _ hP
    have hW : apierrors.IsConflict
        (kverrors.Wrap e "failed to get consolelink" [("name", cl.Name)]) = false := by
      simpa [apierrors.IsConflict, apierrors.ReasonForError, kverrors.Wrap] using he
    refine ⟨[], e, rfl, he, ?_, hR, ?_⟩
    · rw [refetches_succ_error c ctx key cl mutate 0 _ _ e hP]
      simp [refetches]
    · rw [retry.OnError, storeAfterRuns_succ_error c ctx key cl mutate 0 _ _ e hP]
      simp [hA, hW, attemptCalls, storeAfterRuns]
  | succ j ih =>
    intro n lastErr w hn hK
    obtain ⟨m, rfl⟩ : ∃ m, n = m + 1 := ⟨n - 1, by omega⟩
    obtain ⟨cur, hR⟩ := hGetOk w.store (by omega)
    have hP : c.Get ctx key w.store = (Except.ok cur, (c.Get ctx key w.store).2) :=
      Prod.ext hR rfl
    have hA := updateAttempt_of_get_ok ctx c cl key mutate w cur _ hP
    obtain ⟨e1, hU, he1⟩ := hConflict (c.Get ctx key w.store).2 (mutate cur cl)
    have hG1 := hGetCount w.store
    have hU1 := hUpdateCount (c.Get ctx key w.store).2 (mutate cur cl)
    obtain ⟨curs, e, hlen, he, hre, hg, hrun⟩ := ih m (some e1)
      ⟨(c.Update ctx (mutate cur cl) (c.Get ctx key w.store).2).2,
        w.calls ++ [Call.Get ctx key, Call.mutate cur cl, Call.Update ctx (mutate cur cl)]⟩
      (by omega) (by simp only; omega)
    refine ⟨cur :: curs, e, by simp [hlen], he, ?_, ?_, ?_⟩
    · rw [refetches_succ_ok c ctx key cl mutate (j + 1) _ _ cur hP]
      simpa using hre
    · rw [storeAfterRuns_succ_ok c ctx key cl mutate j _ _ cur hP]
      exact hg
    · rw [retry.OnError, storeAfterRuns_succ_ok c ctx key cl mutate (j + 1) _ _ cur hP]
      simp [hA, hU, he1, hrun, attemptCalls]

/-- C20. A failed re-fetch ends the update path. Let `gets` count the `Get`s a
store has received. If the initial `Get` and the first `K` re-fetches succeed
(`K` below the retry budget), `equal` is false on the initially fetched
object, every `Update` is answered Conflict, and the next re-fetch fails with
an error that is not a Conflict (NotFound, say), then the call returns the
error of that very `Get`, the one made on the store the `K` runs left, wrapped
as "failed to get consolelink" and again as "failed to update consolelink",
both with the object's name; the calls end with the failed `Get`: no `mutate`
and no `Update` in that run, no further run, and no `Create`; the store is as
that `Get` left it. -/
theorem createOrUpdate_refetch_failure {σ : Type} (ctx : Context) (c : Client σ)
    (cl : ConsoleLink) (equal : ConsoleLinkEqualityFunc) (mutate : MutateConsoleLinkFunc)
    (w : World σ) (K : Nat) (gets : σ → Nat)
    (hK : K < retry.DefaultRetry.Steps)
    (hStart : gets w.store = 0)
    (hGetCount : ∀ s, gets (c.Get ctx { Name := cl.Name } s).2 = gets s + 1)
    (hUpdateCount : ∀ s obj, gets (c.Update ctx obj s).2 = gets s)
    (hGetOk : ∀ s, gets s ≤ K → ∃ cur, (c.Get ctx { Name := cl.Name } s).1 = Except.ok cur)
    (hGetFail : ∀ s, gets s = K + 1 →
      ∃ e, (c.Get ctx { Name := cl.Name } s).1 = Except.error e
        ∧ apierrors.IsConflict e = false)
    (hEqual : ∀ cur, (c.Get ctx { Name := cl.Name } w.store).1 = Except.ok cur →
      equal cur cl = false)
    (hConflict : ∀ s obj,
      ∃ e, (c.Update ctx obj s).1 = some e ∧ apierrors.IsConflict e = true) :
    ∃ cur0 curs e, curs.length = K ∧ apierrors.IsConflict e = false
      ∧ (c.Get ctx { Name := cl.Name } w.store).1 = Except.ok cur0
      ∧ refetches c ctx { Name := cl.Name } cl mutate (K + 1)
          (c.Get ctx { Name := cl.Name } w.store).2 = curs.map some ++ [none]
      ∧ (c.Get ctx { Name := cl.Name }
          (storeAfterRuns c ctx { Name := cl.Name } cl mutate K
            (c.Get ctx { Name := cl.Name } w.store).2)).1 = Except.error e
      ∧ CreateOrUpdateConsoleLink ctx c cl equal mutate w
          = (some (kverrors.Wrap
              (kverrors.Wrap e "failed to get consolelink" [("name", cl.Name)])
              "failed to update consolelink" [("name", cl.Name)]),
              ⟨storeAfterRuns c ctx { Name := cl.Name } cl mutate (K + 1)
                (c.Get ctx { Name := cl.Name } w.store).2,
                w.calls ++ [Call.Get ctx { Name := cl.Name }, Call.equal cur0 cl]
                  ++ attemptCalls ctx { Name := cl.Name } cl mutate curs
                  ++ [Call.Get ctx { Name := cl.Name }]⟩)
      ∧ ([Call.Get ctx { Name := cl.Name }, Call.equal cur0 cl]
          ++ attemptCalls ctx { Name := cl.Name } cl mutate curs
          ++ [Call.Get ctx { Name := cl.Name }]).countP Call.isCreate = 0 := by
  obtain ⟨cur0, hcur0⟩ := hGetOk w.store (by omega)
  have hG := doGet_eq c ctx { Name := cl.Name } w _ _
    (Prod.ext hcur0 rfl : c.Get ctx { Name := cl.Name } w.store = (_, _))
  have hE := hEqual cur0 hcur0
  have hG1 := hGetCount w.store
  obtain ⟨curs, e, hlen, he, hre, hg, hrun⟩ :=
    onError_conflicts_then_get_failure ctx c cl { Name := cl.Name } mutate K gets hGetCount
      hUpdateCount hGetOk hGetFail hConflict K retry.DefaultRetry.Steps none
      ⟨(c.Get ctx { Name := cl.Name } w.store).2,
        w.calls ++ [Call.Get ctx { Name := cl.Name }, Call.equal cur0 cl]⟩
      hK (by simp only; omega)
  refine ⟨cur0, curs, e, hlen, he, hcur0, hre, hg, ?_, ?_⟩
  · simp [CreateOrUpdateConsoleLink, hG, callEqual, hE, retry.RetryOnConflict, hrun]
  · simp [List.countP_append, List.countP_cons, Call.isCreate, attemptCalls_countP_isCreate]

/-- Witness for C20 with `K = 1`: the first `Update` meets a Conflict and by
the second re-fetch the object is gone; the error returned carries that
NotFound. -/
theorem createOrUpdate_refetch_failure_witness :
    (∃ cur0 curs e, curs.length = 1 ∧ apierrors.IsConflict e = false
      ∧ (deletedMeanwhileClient.Get (Context.supplied 0)
          { Name := (sampleLink "x" "b").Name } 0).1 = Except.ok cur0
      ∧ refetches deletedMeanwhileClient (Context.supplied 0)
          { Name := (sampleLink "x" "b").Name } (sampleLink "x" "b") MutateConsoleLinkSpecOnly
          (1 + 1)
          (deletedMeanwhileClient.Get (Context.supplied 0)
            { Name := (sampleLink "x" "b").Name } 0).2 = curs.map some ++ [none]
      ∧ (deletedMeanwhileClient.Get (Context.supplied 0) { Name := (sampleLink "x" "b").Name }
          (storeAfterRuns deletedMeanwhileClient (Context.supplied 0)
            { Name := (sampleLink "x" "b").Name } (sampleLink "x" "b")
            MutateConsoleLinkSpecOnly 1
            (deletedMeanwhileClient.Get (Context.supplied 0)
              { Name := (sampleLink "x" "b").Name } 0).2)).1 = Except.error e
      ∧ CreateOrUpdateConsoleLink (Context.supplied 0) deletedMeanwhileClient
          (sampleLink "x" "b") (fun a b => a.Spec == b.Spec) MutateConsoleLinkSpecOnly ⟨0, []⟩
          = (some (kverrors.Wrap
              (kverrors.Wrap e "failed to get consolelink"
                [("name", (sampleLink "x" "b").Name)])
              "failed to update consolelink" [("name", (sampleLink "x" "b").Name)]),
              ⟨storeAfterRuns deletedMeanwhileClient (Context.supplied 0)
                { Name := (sampleLink "x" "b").Name } (sampleLink "x" "b")
                MutateConsoleLinkSpecOnly (1 + 1)
                (deletedMeanwhileClient.Get (Context.supplied 0)
                  { Name := (sampleLink "x" "b").Name } 0).2,
                [] ++ [Call.Get (Context.supplied 0) { Name := (sampleLink "x" "b").Name },
                    Call.equal cur0 (sampleLink "x" "b")]
                  ++ attemptCalls (Context.supplied 0) { Name := (sampleLink "x" "b").Name }
                      (sampleLink "x" "b") MutateConsoleLinkSpecOnly curs
                  ++ [Call.Get (Context.supplied 0) { Name := (sampleLink "x" "b").Name }]⟩)
      ∧ ([Call.Get (Context.supplied 0) { Name := (sampleLink "x" "b").Name },
            Call.equal cur0 (sampleLink "x" "b")]
          ++ attemptCalls (Context.supplied 0) { Name := (sampleLink "x" "b").Name }
              (sampleLink "x" "b") MutateConsoleLinkSpecOnly curs
          ++ [Call.Get (Context.supplied 0) { Name := (sampleLink "x" "b").Name }]).countP
            Call.isCreate = 0)
    ∧ (CreateOrUpdateConsoleLink (Context.supplied 0) deletedMeanwhileClient
          (sampleLink "x" "b") (fun a b => a.Spec == b.Spec) MutateConsoleLinkSpecOnly
          ⟨0, []⟩).1
        = some (kverrors.Wrap
            (kverrors.Wrap (Err.status StatusReason.NotFound "x") "failed to get consolelink"
              [("name", "x")])
            "failed to update consolelink" [("name", "x")])
    ∧ (CreateOrUpdateConsoleLink (Context.supplied 0) deletedMeanwhileClient
          (sampleLink "x" "b") (fun a b => a.Spec == b.Spec) MutateConsoleLinkSpecOnly
          ⟨0, []⟩).2.calls
        = [Call.Get (Context.supplied 0) { Name := "x" },
           Call.equal (sampleLink "x" "a") (sampleLink "x" "b"),
           Call.Get (Context.supplied 0) { Name := "x" },
           Call.mutate (sampleLink "x" "a") (sampleLink "x" "b"),
           Call.Update (Context.supplied 0)
             (MutateConsoleLinkSpecOnly (sampleLink "x" "a") (sampleLink "x" "b")),
           Call.Get (Context.supplied 0) { Name := "x" }] :=
  ⟨createOrUpdate_refetch_failure (Context.supplied 0) deletedMeanwhileClient
      (sampleLink "x" "b") (fun a b => a.Spec == b.Spec) MutateConsoleLinkSpecOnly ⟨0, []⟩ 1
      (fun n => n) (by decide) rfl
      (fun _ => rfl)
      (fun _ _ => rfl)
      (fun s h => ⟨sampleLink "x" "a", by
        have h1 : s ≤ 1 := h
        simp [deletedMeanwhileClient, getScriptedClient, h1]⟩)
      (fun s h => ⟨Err.status StatusReason.NotFound "x", by
        have h1 : s = 2 := h
        simp [deletedMeanwhileClient, getScriptedClient, h1], rfl⟩)
      (fun cur h => by
        have hc : cur = sampleLink "x" "a" := by
          simp only [deletedMeanwhileClient, getScriptedClient] at h
          simpa using h.symm
        subst hc
        decide)
      (fun _ _ => ⟨Err.status StatusReason.Conflict "stale", rfl, rfl⟩),
    by decide, by decide⟩

end console
